import Mathlib

/-!
Verification of the session/library normalization layer of a media-server
telemetry bridge (`plexpy/embyconnect.py`).

The Python code operates on JSON-decoded values (dicts, lists, strings,
numbers, booleans, None).  We shallowly embed those values as the inductive
type `JVal` and the Python operations the code performs (`dict.get`,
truthiness, `==`, `str.lower`, f-string formatting, tick division, ...) as
Lean functions.  Operations that can raise a Python exception return
`Except PyErr _`; total operations return plain values.

Modelling notes, applied consistently:
* JSON numbers are modelled as integers (`Int`).  None of the verified
  claims involves fractional values.
* `int(ticks / 10000)` (true division then truncation toward zero) is
  modelled as exact truncated division `Int.tdiv`.  For `|ticks| < 2^52`
  the IEEE-754 double produced by Python's `/` truncates to the same
  integer, so the model and CPython agree on the whole realistic range.
* Python `dict` literals and JSON objects are modelled as association
  lists in insertion order with unique keys; `jlookup` is `dict.get`.
* `str.lower`, `str.replace(' ', '')` and `split(':')[0]` are modelled
  character-wise (`strLower`, `stripSpaces`, `upToColon`); this agrees
  with CPython on all ASCII data.
* `repr`/`str()` of lists and dicts and the exact escaping performed by
  `json.dumps` are approximated (`pyRepr`, `dumps`); no claim depends on
  the rendered text of a nested container, only on determinism.
-/

/-! ## Definitions: embedded source functions, data encodings, and spec-side models -/

/-- A JSON-decoded Python value: `None`, `bool`, `int`, `str`, `list`, `dict`. -/
inductive JVal where
  | null
  | bool (b : Bool)
  | int (n : Int)
  | str (s : String)
  | arr (xs : List JVal)
  | obj (kvs : List (String × JVal))

/-- The Python exception kinds raised by the embedded code paths. -/
inductive PyErr where
  | attributeError
  | typeError
  | valueError
  | unboundLocal

/-- Python truthiness of a JSON value (`bool(x)`). -/
def truthy : JVal → Bool
  | .null => false
  | .bool b => b
  | .int n => n != 0
  | .str s => s != ""
  | .arr xs => !xs.isEmpty
  | .obj kvs => !kvs.isEmpty

/-- First-match key lookup in an association list (Python `dict` access;
JSON objects decode to dicts with unique keys). -/
def jlookup : List (String × JVal) → String → Option JVal
  | [], _ => none
  | (k, v) :: rest, q => if k = q then some v else jlookup rest q

/-- Python `v.get(k, d)`: returns the entry or the default on a dict, raises
`AttributeError` on any non-dict value. -/
def pyGet (v : JVal) (k : String) (d : JVal) : Except PyErr JVal :=
  match v with
  | .obj kvs => .ok ((jlookup kvs k).getD d)
  | _ => .error .attributeError

mutual

/-- Python `==` on JSON values.  Booleans compare equal to the integers
0/1 as in Python.  Lists and dicts are compared pairwise in order (Python
compares dicts by key set; the two coincide for equal insertion orders,
and no verified claim compares two containers). -/
def pyEqB : JVal → JVal → Bool
  | .null, .null => true
  | .bool a, .bool b => a == b
  | .bool a, .int b => (if a then (1 : Int) else 0) == b
  | .int a, .bool b => a == (if b then (1 : Int) else 0)
  | .int a, .int b => a == b
  | .str a, .str b => a == b
  | .arr a, .arr b => pyEqListB a b
  | .obj a, .obj b => pyEqObjB a b
  | _, _ => false

/-- Pairwise `==` on lists of JSON values. -/
def pyEqListB : List JVal → List JVal → Bool
  | [], [] => true
  | x :: xs, y :: ys => pyEqB x y && pyEqListB xs ys
  | _, _ => false

/-- Pairwise `==` on object entry lists. -/
def pyEqObjB : List (String × JVal) → List (String × JVal) → Bool
  | [], [] => true
  | (k, v) :: xs, (k2, v2) :: ys => k == k2 && pyEqB v v2 && pyEqObjB xs ys
  | _, _ => false

end

mutual

/-- Python `repr` of a JSON value (string quoting approximated: special
characters inside strings are not escaped). -/
def pyRepr : JVal → String
  | .null => "None"
  | .bool b => if b then "True" else "False"
  | .int n => toString n
  | .str s => "'" ++ s ++ "'"
  | .arr xs => "[" ++ pyReprList xs ++ "]"
  | .obj kvs => "\x7b" ++ pyReprObj kvs ++ "\x7d"

/-- Comma-separated `repr` of list elements. -/
def pyReprList : List JVal → String
  | [] => ""
  | [x] => pyRepr x
  | x :: y :: rest => pyRepr x ++ ", " ++ pyReprList (y :: rest)

/-- Comma-separated `repr` of dict entries. -/
def pyReprObj : List (String × JVal) → String
  | [] => ""
  | [(k, v)] => "'" ++ k ++ "': " ++ pyRepr v
  | (k, v) :: y :: rest => "'" ++ k ++ "': " ++ pyRepr v ++ ", " ++ pyReprObj (y :: rest)

end

/-- Python `str(x)`: the value itself for strings, `repr`-style text
otherwise (f-string interpolation of a value). -/
def pyStr : JVal → String
  | .str s => s
  | v => pyRepr v

/-- Escape `"` and backslash for JSON string output. -/
def jsonEscape : List Char → String
  | [] => ""
  | c :: rest =>
      (if c = '"' then "\\\"" else if c = '\\' then "\\\\" else String.singleton c)
        ++ jsonEscape rest

mutual

/-- `json.dumps` with default separators (escaping inside strings
approximated: only `"` and backslash are escaped).  Deterministic; no
verified claim inspects the rendered text. -/
def dumps : JVal → String
  | .null => "null"
  | .bool b => if b then "true" else "false"
  | .int n => toString n
  | .str s => "\"" ++ jsonEscape s.data ++ "\""
  | .arr xs => "[" ++ dumpsList xs ++ "]"
  | .obj kvs => "\x7b" ++ dumpsObj kvs ++ "\x7d"

/-- Comma-separated `json.dumps` of list elements. -/
def dumpsList : List JVal → String
  | [] => ""
  | [x] => dumps x
  | x :: y :: rest => dumps x ++ ", " ++ dumpsList (y :: rest)

/-- Comma-separated `json.dumps` of object entries. -/
def dumpsObj : List (String × JVal) → String
  | [] => ""
  | [(k, v)] => "\"" ++ k ++ "\": " ++ dumps v
  | (k, v) :: y :: rest => "\"" ++ k ++ "\": " ++ dumps v ++ ", " ++ dumpsObj (y :: rest)

end

/-- Python iteration over a value (`for x in v` / a generator over `v`):
lists yield elements, strings yield one-character strings, dicts yield
their keys, everything else raises `TypeError`. -/
def pyIterGen : JVal → Except PyErr (List JVal)
  | .arr xs => .ok xs
  | .str s => .ok (s.data.map fun c => .str (String.singleton c))
  | .obj kvs => .ok (kvs.map fun kv => .str kv.1)
  | .null => .error .typeError
  | .bool _ => .error .typeError
  | .int _ => .error .typeError

/-- Python `next((x for x in xs if p x), d)`: first element satisfying the
(possibly raising) predicate, or the default. -/
def pyNext : List JVal → (JVal → Except PyErr Bool) → JVal → Except PyErr JVal
  | [], _, d => .ok d
  | x :: rest, p, d => do
      let b ← p x
      if b then pure x else pyNext rest p d

/-- Character-wise lowercase (Python `str.lower` on ASCII data). -/
def strLower (s : String) : String := String.mk (s.data.map Char.toLower)

/-- Python `str.lower()` on a JSON value: only strings have the method. -/
def pyLower (v : JVal) : Except PyErr JVal :=
  match v with
  | .str s => .ok (.str (strLower s))
  | _ => .error .attributeError

/-- Remove every space character (Python `str.replace(' ', '')`). -/
def stripSpaces (s : String) : String := String.mk (s.data.filter fun c => c ≠ ' ')

/-- Python `v.replace(' ', '').lower()`: only strings have the methods. -/
def pyPlatform (v : JVal) : Except PyErr JVal :=
  match v with
  | .str s => .ok (.str (strLower (stripSpaces s)))
  | _ => .error .attributeError

/-- Prefix of a string before the first `:` (Python `s.split(':')[0]`;
`split` always returns a non-empty list, so the index never fails). -/
def upToColon (s : String) : String := String.mk (s.data.takeWhile fun c => c ≠ ':')

/-- Python `v.split(':')[0]` on a JSON value: only strings have `split`. -/
def pySplitColonHead (v : JVal) : Except PyErr JVal :=
  match v with
  | .str s => .ok (.str (upToColon s))
  | _ => .error .attributeError

/-- Python `v >= 0`: defined for numbers (booleans count as 0/1), a
`TypeError` for `None`, strings and containers. -/
def pyGeZero (v : JVal) : Except PyErr Bool :=
  match v with
  | .int n => .ok (0 ≤ n)
  | .bool _ => .ok true
  | _ => .error .typeError

/-- Python `v < 0`: defined for numbers (booleans count as 0/1), a
`TypeError` for `None`, strings and containers. -/
def pyLtZero (v : JVal) : Except PyErr Bool :=
  match v with
  | .int n => .ok (n < 0)
  | .bool _ => .ok false
  | _ => .error .typeError

/-- Zero-padded rendering of an integer to width 2 (Python `format(n, '02d')`). -/
def fmt02dInt (n : Int) : String :=
  if 0 ≤ n ∧ n < 10 then "0" ++ toString n else toString n

/-- Python `format(v, '02d')` inside an f-string: integers are padded,
booleans format as 0/1, strings raise `ValueError` (unknown format code
'd' for str), everything else raises `TypeError`. -/
def fmt02d (v : JVal) : Except PyErr String :=
  match v with
  | .int n => .ok (fmt02dInt n)
  | .bool b => .ok (if b then "01" else "00")
  | .str _ => .error .valueError
  | _ => .error .typeError

/-- Python `a or b` on JSON values: the first operand if truthy, else the
second. -/
def pyOr (a b : JVal) : JVal := if truthy a then a else b

/-- Join a list of JSON strings with `;`, failing on a non-string element. -/
def joinStrs : List JVal → Except PyErr String
  | [] => .ok ""
  | [.str s] => .ok s
  | .str s :: y :: rest => do
      let tail ← joinStrs (y :: rest)
      pure (s ++ ";" ++ tail)
  | _ => .error .typeError

/-- Python `';'.join(v)`: joins string elements of a list (or the
characters of a string, or the keys of a dict); any non-string element,
or a non-iterable operand, raises `TypeError`. -/
def pyJoinSemicolon (v : JVal) : Except PyErr String :=
  match v with
  | .arr xs => joinStrs xs
  | .str s => .ok (String.intercalate ";" (s.data.map String.singleton))
  | .obj kvs => .ok (String.intercalate ";" (kvs.map Prod.fst))
  | _ => .error .typeError

/-- `ticks_to_ms` (embyconnect.py:384): `int(ticks / 10000) if ticks else 0`.
Truthiness guard, then true division truncated toward zero (a boolean
divides to less than one and truncates to 0). -/
def ticks_to_ms (ticks : JVal) : Except PyErr JVal :=
  if truthy ticks = false then .ok (.int 0)
  else match ticks with
    | .int n => .ok (.int (Int.tdiv n 10000))
    | .bool _ => .ok (.int 0)
    | _ => .error .typeError

/-- `get_media_type` (embyconnect.py:388): classify
`now_playing['Type'].lower()` into the fixed media-type vocabulary. -/
def get_media_type (now_playing : JVal) : Except PyErr JVal := do
  let t ← pyGet now_playing "Type" (.str "")
  let lt ← pyLower t
  pure (.str
    (match lt with
     | .str s =>
        if s = "episode" then "episode"
        else if s = "movie" then "movie"
        else if s = "track" then "track"
        else if s = "photo" then "photo"
        else if s = "channel" ∨ s = "program" then "live"
        else "clip"
     | _ => "clip"))

/-- `get_transcode_decision` (embyconnect.py:404): look up
`play_state.get('PlayMethod', 'DirectPlay')` (note the `'DirectPlay'`
default for an absent key) and map `DirectPlay` to `"direct play"`,
`DirectStream` to `"copy"`, anything else to `"transcode"`. -/
def get_transcode_decision (play_state : JVal) : Except PyErr JVal := do
  let pm ← pyGet play_state "PlayMethod" (.str "DirectPlay")
  pure (.str
    (if pyEqB pm (.str "DirectPlay") then "direct play"
     else if pyEqB pm (.str "DirectStream") then "copy"
     else "transcode"))

/-- Stream-selection predicate for `s.get('Type') == 'Video'`
(embyconnect.py:378). -/
def predVideo (s : JVal) : Except PyErr Bool := do
  let t ← pyGet s "Type" .null
  pure (pyEqB t (.str "Video"))

/-- Stream-selection predicate for
`s.get('Type') == 'Audio' and s.get('IsDefault')` (embyconnect.py:379). -/
def predAudio (s : JVal) : Except PyErr Bool := do
  let t ← pyGet s "Type" .null
  if pyEqB t (.str "Audio") then do
    let d ← pyGet s "IsDefault" .null
    pure (truthy d)
  else pure false

/-- Stream-selection predicate for `s.get('Type') == 'Subtitle' and
s.get('Index') == play_state.get('SubtitleStreamIndex', -1)`
(embyconnect.py:380). -/
def predSub (play_state : JVal) (s : JVal) : Except PyErr Bool := do
  let t ← pyGet s "Type" .null
  if pyEqB t (.str "Subtitle") then do
    let idx ← pyGet s "Index" .null
    let ssi ← pyGet play_state "SubtitleStreamIndex" (.int (-1))
    pure (pyEqB idx ssi)
  else pure false

/-- `_build_full_title` (embyconnect.py:578): synthesize the display title
from the playing item, by media type; guards use Python truthiness, and the
season/episode numbers go through the `:02d` format code. -/
def buildFullTitle (now_playing : JVal) : Except PyErr JVal := do
  let t ← pyGet now_playing "Type" (.str "")
  let mt ← pyLower t
  if pyEqB mt (.str "episode") then do
    let series ← pyGet now_playing "SeriesName" (.str "")
    let season ← pyGet now_playing "ParentIndexNumber" (.str "")
    let episode ← pyGet now_playing "IndexNumber" (.str "")
    let title ← pyGet now_playing "Name" (.str "")
    if truthy series && truthy season && truthy episode && truthy title then do
      let ss ← fmt02d season
      let es ← fmt02d episode
      pure (.str (pyStr series ++ " - s" ++ ss ++ "e" ++ es ++ " - " ++ pyStr title))
    else if truthy series && truthy title then
      pure (.str (pyStr series ++ " - " ++ pyStr title))
    else
      pure title
  else if pyEqB mt (.str "movie") then do
    let title ← pyGet now_playing "Name" (.str "")
    let year ← pyGet now_playing "ProductionYear" (.str "")
    if truthy title && truthy year then
      pure (.str (pyStr title ++ " (" ++ pyStr year ++ ")"))
    else
      pure title
  else if pyEqB mt (.str "track") then do
    let artist ← pyGet now_playing "AlbumArtist" (.str "")
    let track ← pyGet now_playing "Name" (.str "")
    if truthy artist && truthy track then
      pure (.str (pyStr artist ++ " - " ++ pyStr track))
    else
      pure track
  else
    pyGet now_playing "Name" (.str "")

/-- Extraction prologue of `transform_session_data` (embyconnect.py:373-381):
pull out `PlayState`, `NowPlayingItem` and `MediaStreams`, then elect the
video / default-audio / active-subtitle stream with `next(...)`. -/
def tsdPre (emby_session : JVal) :
    Except PyErr (JVal × JVal × JVal × JVal × JVal) := do
  let play_state ← pyGet emby_session "PlayState" (.obj [])
  let now_playing ← pyGet emby_session "NowPlayingItem" (.obj [])
  let media_streams ← pyGet now_playing "MediaStreams" (.arr [])
  let msl ← pyIterGen media_streams
  let video_stream ← pyNext msl predVideo (.obj [])
  let audio_stream ← pyNext msl predAudio (.obj [])
  let subtitle_stream ← pyNext msl (predSub play_state) (.obj [])
  pure (play_state, now_playing, video_stream, audio_stream, subtitle_stream)

/-- Fields `session_key` .. `ip_address` of the canonical session dict
(embyconnect.py:415-432), evaluated in source order. -/
def tsdIdent (emby_session : JVal) (now_playing : JVal) :
    Except PyErr (List (String × JVal)) := do
  let session_key ← pyGet emby_session "Id" (.str "")
  let session_id ← pyGet emby_session "Id" (.str "")
  let rating_key ← pyGet now_playing "Id" (.str "")
  let rating_key_ws ← pyGet now_playing "Id" (.str "")
  let user_id ← pyGet emby_session "UserId" (.str "")
  let user ← pyGet emby_session "UserName" (.str "")
  let friendly_name ← pyGet emby_session "DeviceName" (.str "")
  let player ← pyGet emby_session "Client" (.str "")
  let product ← pyGet emby_session "Client" (.str "")
  let platform0 ← pyGet emby_session "Client" (.str "")
  let platform ← pyPlatform platform0
  let machine_id ← pyGet emby_session "DeviceId" (.str "")
  let rep0 ← pyGet emby_session "RemoteEndPoint" .null
  let ip_address ←
    (if truthy rep0 then do
      let rep ← pyGet emby_session "RemoteEndPoint" (.str "")
      pySplitColonHead rep
    else pure (.str ""))
  pure
    [("session_key", session_key),
     ("session_id", session_id),
     ("transcode_key", .str ""),
     ("rating_key", rating_key),
     ("rating_key_websocket", rating_key_ws),
     ("user_id", user_id),
     ("user", user),
     ("friendly_name", friendly_name),
     ("player", player),
     ("product", product),
     ("platform", platform),
     ("machine_id", machine_id),
     ("ip_address", ip_address)]

/-- Fields `media_type` .. `parent_media_index` of the canonical session
dict (embyconnect.py:434-451), evaluated in source order. -/
def tsdMedia (now : Int) (now_playing : JVal) :
    Except PyErr (List (String × JVal)) := do
  let media_type ← get_media_type now_playing
  let section_id ← pyGet now_playing "ParentId" (.str "")
  let title ← pyGet now_playing "Name" (.str "")
  let pt_series ← pyGet now_playing "SeriesName" (.str "")
  let pt_album ← pyGet now_playing "Album" (.str "")
  let grandparent_title ← pyGet now_playing "SeriesName" (.str "")
  let original_title ← pyGet now_playing "OriginalTitle" (.str "")
  let full_title ← buildFullTitle now_playing
  let year ← pyGet now_playing "ProductionYear" (.str "")
  let originally_available_at ← pyGet now_playing "PremiereDate" (.str "")
  let date_created ← pyGet now_playing "DateCreated" .null
  let guid ← pyGet now_playing "Id" (.str "")
  let prk_season ← pyGet now_playing "SeasonId" (.str "")
  let prk_album ← pyGet now_playing "AlbumId" (.str "")
  let grk_series ← pyGet now_playing "SeriesId" (.str "")
  let grk_artist ← pyGet now_playing "AlbumArtistId" (.str "")
  let media_index ← pyGet now_playing "IndexNumber" (.str "")
  let parent_media_index ← pyGet now_playing "ParentIndexNumber" (.str "")
  pure
    [("media_type", media_type),
     ("section_id", section_id),
     ("title", title),
     ("parent_title", pyOr pt_series pt_album),
     ("grandparent_title", grandparent_title),
     ("original_title", original_title),
     ("full_title", full_title),
     ("year", year),
     ("originally_available_at", originally_available_at),
     ("added_at", if truthy date_created then .int now else .str ""),
     ("guid", guid),
     ("parent_rating_key", pyOr prk_season prk_album),
     ("grandparent_rating_key", pyOr grk_series grk_artist),
     ("media_index", media_index),
     ("parent_media_index", parent_media_index)]

/-- Fields `state` .. `quality_profile` of the canonical session dict
(embyconnect.py:453-465), evaluated in source order. -/
def tsdState (now : Int) (play_state : JVal) (now_playing : JVal) :
    Except PyErr (List (String × JVal)) := do
  let is_paused ← pyGet play_state "IsPaused" .null
  let position_ticks ← pyGet play_state "PositionTicks" (.int 0)
  let view_offset ← ticks_to_ms position_ticks
  let runtime_ticks ← pyGet now_playing "RunTimeTicks" (.int 0)
  let duration ← ticks_to_ms runtime_ticks
  let transcode_decision ← get_transcode_decision play_state
  let vd_pm ← pyGet play_state "PlayMethod" .null
  let ad_pm ← pyGet play_state "PlayMethod" .null
  pure
    [("state", .str (if truthy is_paused then "paused" else "playing")),
     ("view_offset", view_offset),
     ("duration", duration),
     ("started", .int now),
     ("stopped", .null),
     ("paused_counter", .int 0),
     ("transcode_decision", transcode_decision),
     ("video_decision", .str (if pyEqB vd_pm (.str "DirectPlay") then "direct play" else "copy")),
     ("audio_decision", .str (if pyEqB ad_pm (.str "DirectPlay") then "direct play" else "copy")),
     ("quality_profile", .str "")]

/-- Fields `width` .. `aspect_ratio` of the canonical session dict
(embyconnect.py:467-481), evaluated in source order. -/
def tsdVideo (video_stream : JVal) (now_playing : JVal) :
    Except PyErr (List (String × JVal)) := do
  let width ← pyGet video_stream "Width" (.str "")
  let height ← pyGet video_stream "Height" (.str "")
  let container ← pyGet now_playing "Container" (.str "")
  let bitrate ← pyGet now_playing "Bitrate" (.str "")
  let video_codec ← pyGet video_stream "Codec" (.str "")
  let video_bitrate ← pyGet video_stream "BitRate" (.str "")
  let video_width ← pyGet video_stream "Width" (.str "")
  let video_height ← pyGet video_stream "Height" (.str "")
  let vres0 ← pyGet video_stream "Height" .null
  let vres1 ← pyGet video_stream "Height" (.str "")
  let vfr0 ← pyGet video_stream "AverageFrameRate" .null
  let vfr1 ← pyGet video_stream "AverageFrameRate" (.str "")
  let interlaced ← pyGet video_stream "IsInterlaced" .null
  let vfres_w ← pyGet video_stream "Width" .null
  let vfres_h ← pyGet video_stream "Height" .null
  let vfres_w1 ← pyGet video_stream "Width" (.str "")
  let vfres_h1 ← pyGet video_stream "Height" (.str "")
  let video_dynamic_range ← pyGet video_stream "VideoRange" (.str "")
  let aspect_ratio ← pyGet video_stream "AspectRatio" (.str "")
  pure
    [("width", width),
     ("height", height),
     ("container", container),
     ("bitrate", bitrate),
     ("video_codec", video_codec),
     ("video_bitrate", video_bitrate),
     ("video_width", video_width),
     ("video_height", video_height),
     ("video_resolution", if truthy vres0 then .str (pyStr vres1 ++ "p") else .str ""),
     ("video_framerate", if truthy vfr0 then .str (pyStr vfr1) else .str ""),
     ("video_scan_type", .str (if truthy interlaced then "interlaced" else "progressive")),
     ("video_full_resolution",
       if truthy vfres_w && truthy vfres_h then
         .str (pyStr vfres_w1 ++ "x" ++ pyStr vfres_h1)
       else .str ""),
     ("video_dynamic_range", video_dynamic_range),
     ("aspect_ratio", aspect_ratio)]

/-- Fields `audio_codec` .. `subtitles` of the canonical session dict
(embyconnect.py:483-494), evaluated in source order. -/
def tsdAudioSub (audio_stream subtitle_stream play_state : JVal) :
    Except PyErr (List (String × JVal)) := do
  let audio_codec ← pyGet audio_stream "Codec" (.str "")
  let audio_bitrate ← pyGet audio_stream "BitRate" (.str "")
  let audio_channels ← pyGet audio_stream "Channels" (.str "")
  let audio_language ← pyGet audio_stream "Language" (.str "")
  let audio_language_code ← pyGet audio_stream "Language" (.str "")
  let subtitle_codec ← pyGet subtitle_stream "Codec" (.str "")
  let subtitle_forced0 ← pyGet subtitle_stream "IsForced" .null
  let subtitle_language ← pyGet subtitle_stream "Language" (.str "")
  let ssi ← pyGet play_state "SubtitleStreamIndex" (.int (-1))
  let subtitles_ge ← pyGeZero ssi
  pure
    [("audio_codec", audio_codec),
     ("audio_bitrate", audio_bitrate),
     ("audio_channels", audio_channels),
     ("audio_language", audio_language),
     ("audio_language_code", audio_language_code),
     ("subtitle_codec", subtitle_codec),
     ("subtitle_forced", .int (if truthy subtitle_forced0 then 1 else 0)),
     ("subtitle_language", subtitle_language),
     ("subtitles", .int (if subtitles_ge then 1 else 0))]

/-- Fields `transcode_protocol` .. `stream_subtitle_language` of the
canonical session dict (embyconnect.py:496-530), evaluated in source
order (the nine transcode placeholders are constants). -/
def tsdStream (video_stream audio_stream subtitle_stream play_state now_playing : JVal) :
    Except PyErr (List (String × JVal)) := do
  let stream_bitrate ← pyGet video_stream "BitRate" (.str "")
  let svres0 ← pyGet video_stream "Height" .null
  let svres1 ← pyGet video_stream "Height" (.str "")
  let scd_pm ← pyGet play_state "PlayMethod" .null
  let stream_container ← pyGet now_playing "Container" (.str "")
  let svd_pm ← pyGet play_state "PlayMethod" .null
  let stream_video_codec ← pyGet video_stream "Codec" (.str "")
  let stream_video_bitrate ← pyGet video_stream "BitRate" (.str "")
  let stream_video_width ← pyGet video_stream "Width" (.str "")
  let stream_video_height ← pyGet video_stream "Height" (.str "")
  let svfr0 ← pyGet video_stream "AverageFrameRate" .null
  let svfr1 ← pyGet video_stream "AverageFrameRate" (.str "")
  let sinterlaced ← pyGet video_stream "IsInterlaced" .null
  let svfres_w ← pyGet video_stream "Width" .null
  let svfres_h ← pyGet video_stream "Height" .null
  let svfres_w1 ← pyGet video_stream "Width" (.str "")
  let svfres_h1 ← pyGet video_stream "Height" (.str "")
  let stream_video_dynamic_range ← pyGet video_stream "VideoRange" (.str "")
  let sad_pm ← pyGet play_state "PlayMethod" .null
  let stream_audio_codec ← pyGet audio_stream "Codec" (.str "")
  let stream_audio_bitrate ← pyGet audio_stream "BitRate" (.str "")
  let stream_audio_channels ← pyGet audio_stream "Channels" (.str "")
  let stream_audio_language ← pyGet audio_stream "Language" (.str "")
  let stream_audio_language_code ← pyGet audio_stream "Language" (.str "")
  let ssi2 ← pyGet play_state "SubtitleStreamIndex" (.int (-1))
  let ssd_lt ← pyLtZero ssi2
  let stream_subtitle_codec ← pyGet subtitle_stream "Codec" (.str "")
  let ssf0 ← pyGet subtitle_stream "IsForced" .null
  let stream_subtitle_language ← pyGet subtitle_stream "Language" (.str "")
  pure
    [("transcode_protocol", .str ""),
     ("transcode_container", .str ""),
     ("transcode_video_codec", .str ""),
     ("transcode_audio_codec", .str ""),
     ("transcode_audio_channels", .str ""),
     ("transcode_width", .str ""),
     ("transcode_height", .str ""),
     ("transcode_hw_decoding", .str ""),
     ("transcode_hw_encoding", .str ""),
     ("stream_bitrate", stream_bitrate),
     ("stream_video_resolution", if truthy svres0 then .str (pyStr svres1 ++ "p") else .str ""),
     ("stream_container_decision", .str (if pyEqB scd_pm (.str "DirectPlay") then "direct play" else "copy")),
     ("stream_container", stream_container),
     ("stream_video_decision", .str (if pyEqB svd_pm (.str "DirectPlay") then "direct play" else "copy")),
     ("stream_video_codec", stream_video_codec),
     ("stream_video_bitrate", stream_video_bitrate),
     ("stream_video_width", stream_video_width),
     ("stream_video_height", stream_video_height),
     ("stream_video_framerate", if truthy svfr0 then .str (pyStr svfr1) else .str ""),
     ("stream_video_scan_type", .str (if truthy sinterlaced then "interlaced" else "progressive")),
     ("stream_video_full_resolution",
       if truthy svfres_w && truthy svfres_h then
         .str (pyStr svfres_w1 ++ "x" ++ pyStr svfres_h1)
       else .str ""),
     ("stream_video_dynamic_range", stream_video_dynamic_range),
     ("stream_audio_decision", .str (if pyEqB sad_pm (.str "DirectPlay") then "direct play" else "copy")),
     ("stream_audio_codec", stream_audio_codec),
     ("stream_audio_bitrate", stream_audio_bitrate),
     ("stream_audio_channels", stream_audio_channels),
     ("stream_audio_language", stream_audio_language),
     ("stream_audio_language_code", stream_audio_language_code),
     ("stream_subtitle_decision", .str (if ssd_lt then "none" else "burn")),
     ("stream_subtitle_codec", stream_subtitle_codec),
     ("stream_subtitle_forced", .int (if truthy ssf0 then 1 else 0)),
     ("stream_subtitle_language", stream_subtitle_language)]

/-- Fields `thumb` .. `raw_stream_info` of the canonical session dict
(embyconnect.py:532-573), evaluated in source order.  The block of
constant flags mirrors the source literal. -/
def tsdTail (emby_session : JVal) (now_playing : JVal) :
    Except PyErr (List (String × JVal)) := do
  let image_tags ← pyGet now_playing "ImageTags" (.obj [])
  let primary_tag ← pyGet image_tags "Primary" .null
  let thumb ←
    (if truthy primary_tag then do
      let idv ← pyGet now_playing "Id" .null
      pure (JVal.str ("/emby/Items/" ++ pyStr idv ++ "/Images/Primary"))
    else pure (.str ""))
  let parent_id0 ← pyGet now_playing "ParentId" .null
  let parent_thumb ←
    (if truthy parent_id0 then do
      let pid ← pyGet now_playing "ParentId" .null
      pure (JVal.str ("/emby/Items/" ++ pyStr pid ++ "/Images/Primary"))
    else pure (.str ""))
  let series_id0 ← pyGet now_playing "SeriesId" .null
  let grandparent_thumb ←
    (if truthy series_id0 then do
      let sid ← pyGet now_playing "SeriesId" .null
      pure (JVal.str ("/emby/Items/" ++ pyStr sid ++ "/Images/Primary"))
    else pure (.str ""))
  let protocol ← pyGet emby_session "Protocol" .null
  let is_live ← pyGet now_playing "IsLive" .null
  let live_uuid ← pyGet now_playing "LiveStreamId" (.str "")
  let channel_call_sign ← pyGet now_playing "ChannelName" (.str "")
  let channel_id ← pyGet now_playing "ChannelId" (.str "")
  let channel_identifier ← pyGet now_playing "ChannelId" (.str "")
  let channel_title ← pyGet now_playing "ChannelName" (.str "")
  pure
    [("thumb", thumb),
     ("parent_thumb", parent_thumb),
     ("grandparent_thumb", grandparent_thumb),
     ("bandwidth", .int 0),
     ("location", .str "lan"),
     ("secure", .int (if pyEqB protocol (.str "HTTPS") then 1 else 0)),
     ("relayed", .int 0),
     ("live", .int (if truthy is_live then 1 else 0)),
     ("live_uuid", live_uuid),
     ("channel_call_sign", channel_call_sign),
     ("channel_id", channel_id),
     ("channel_identifier", channel_identifier),
     ("channel_title", channel_title),
     ("channel_thumb", .str ""),
     ("channel_vcn", .str ""),
     ("synced_version", .int 0),
     ("synced_version_profile", .str ""),
     ("optimized_version", .int 0),
     ("optimized_version_profile", .str ""),
     ("optimized_version_title", .str ""),
     ("buffer_count", .int 0),
     ("buffer_last_triggered", .int 0),
     ("last_paused", .int 0),
     ("watched", .int 0),
     ("intro", .int 0),
     ("credits", .int 0),
     ("commercial", .int 0),
     ("marker", .int 0),
     ("initial_stream", .int 1),
     ("write_attempts", .int 0),
     ("raw_stream_info", .str (dumps emby_session))]

/-- `transform_session_data` (embyconnect.py:361): normalize one raw
session.  Returns the Empty marker (an object with zero keys) when the raw
session or its `NowPlayingItem` is falsy, otherwise evaluates every field
expression of the Python dict literal in source order (the `tsd...` stages
above; any raised exception propagates to the caller as `Except.error`).
`now` stands for `helpers.timestamp()`. -/
def transform_session_data (now : Int) (emby_session : JVal) : Except PyErr JVal :=
  if truthy emby_session = false then .ok (.obj [])
  else match pyGet emby_session "NowPlayingItem" .null with
  | .error e => .error e
  | .ok npi0 =>
    if truthy npi0 = false then .ok (.obj [])
    else do
      let pre ← tsdPre emby_session
      match pre with
      | (play_state, now_playing, video_stream, audio_stream, subtitle_stream) => do
        let a ← tsdIdent emby_session now_playing
        let b ← tsdMedia now now_playing
        let c ← tsdState now play_state now_playing
        let d ← tsdVideo video_stream now_playing
        let e ← tsdAudioSub audio_stream subtitle_stream play_state
        let f ← tsdStream video_stream audio_stream subtitle_stream play_state now_playing
        let g ← tsdTail emby_session now_playing
        pure (.obj (a ++ b ++ c ++ d ++ e ++ f ++ g))

/-- `get_section_type` (embyconnect.py:696): look up the lower-cased
`CollectionType` in the fixed `type_mapping` table, defaulting to
`"mixed"` for unmapped (or absent, via the `''` default) strings. -/
def get_section_type (emby_library : JVal) : Except PyErr JVal := do
  let ct ← pyGet emby_library "CollectionType" (.str "")
  let lct ← pyLower ct
  pure (.str
    (match lct with
     | .str s =>
        if s = "movies" then "movie"
        else if s = "tvshows" then "show"
        else if s = "music" then "artist"
        else if s = "photos" then "photo"
        else if s = "books" then "photo"
        else if s = "homevideos" then "movie"
        else if s = "musicvideos" then "movie"
        else if s = "mixed" then "mixed"
        else "mixed"
     | _ => "mixed"))

/-- `transform_library_data` (embyconnect.py:684): normalize one library
record.  Empty marker for a falsy input; otherwise the Python dict literal
evaluated in source order.  The literal assigns `parent_count` and
`child_count` twice with the same constant; the resulting dict holds a
single entry per key, as modelled here.  `now` is `helpers.timestamp()`. -/
def transform_library_data (now : Int) (emby_library : JVal) : Except PyErr JVal :=
  if truthy emby_library = false then .ok (.obj [])
  else do
    let section_id ← pyGet emby_library "ItemId" (.str "")
    let section_name ← pyGet emby_library "Name" (.str "")
    let section_type ← get_section_type emby_library
    let uuid ← pyGet emby_library "ItemId" (.str "")
    let primary_key ← pyGet emby_library "ItemId" (.str "")
    let locations_v ← pyGet emby_library "Locations" (.arr [])
    let paths_v ← pyGet emby_library "Locations" (.arr [])
    let paths ← pyJoinSemicolon paths_v
    let collection_type ← pyGet emby_library "CollectionType" (.str "")
    let library_id ← pyGet emby_library "ItemId" (.str "")
    pure (.obj
      [("section_id", section_id),
       ("section_name", section_name),
       ("section_type", section_type),
       ("agent", .str "com.plexapp.agents.none"),
       ("scanner", .str "Emby Media Scanner"),
       ("language", .str "en"),
       ("uuid", uuid),
       ("library_art", .str ""),
       ("library_thumb", .str ""),
       ("parent_count", .int 0),
       ("child_count", .int 0),
       ("primary_key", primary_key),
       ("show_advanced", .int 1),
       ("show_hidden", .int 0),
       ("deleted_section", .int 0),
       ("section_deleted", .int 0),
       ("custom_art_url", .str ""),
       ("custom_thumb_url", .str ""),
       ("refreshing", .int 0),
       ("sync_to_users", .int 1),
       ("count", .int 0),
       ("item_count", .int 0),
       ("created_at", .int now),
       ("updated_at", .int now),
       ("last_accessed", .int now),
       ("last_scanned", .int now),
       ("locations", .str (dumps locations_v)),
       ("paths", .str paths),
       ("collection_type", collection_type),
       ("library_id", library_id),
       ("refresh_enabled", .int 1),
       ("enable_auto_sort", .int 1),
       ("enable_chapter_image_generation", .int 1),
       ("include_in_dashboard", .int 1),
       ("is_active", .int 1),
       ("keep_history", .int 1),
       ("row_id", .null)])

/-- Attribute access `session.mask_session_info` performed after the loop
in `get_current_activity` (embyconnect.py:795).  The local name `session`
is the loop variable holding the last raw session — a JSON-decoded value
(dict, list, string or number), none of which defines the attribute — so
the access raises `AttributeError` (the `from plexpy import session`
module import is shadowed by the loop variable inside the method body). -/
def maskSessionInfoAttr (lastSessionValue : JVal) (activeList : List JVal) :
    Except PyErr (List JVal) :=
  match lastSessionValue, activeList with
  | _, _ => .error .attributeError

/-- The session loop of `get_current_activity` (embyconnect.py:787-791):
keep, in order, the normalization of every raw session whose
`NowPlayingItem` is truthy. -/
def collectActive (now : Int) : List JVal → Except PyErr (List JVal)
  | [] => .ok []
  | s :: rest => do
      let npi ← pyGet s "NowPlayingItem" .null
      if truthy npi then do
        let t ← transform_session_data now s
        let others ← collectActive now rest
        pure (t :: others)
      else
        collectActive now rest

/-- `get_current_activity` (embyconnect.py:768): fetch the raw session
list (its outcome — decoded value or raised exception — is the
`sessionsData` argument), return the early empty result when it is falsy,
otherwise run the collection loop; the whole body sits in a `try` whose
`except` converts any raised exception into the empty well-formed result
`('0', [])` (stream_count string, session list). -/
def get_current_activity (now : Int) (sessionsData : Except PyErr JVal) :
    String × List JVal :=
  match (do
    let sd ← sessionsData
    if truthy sd = false then
      pure (("0", []) : String × List JVal)
    else do
      let items ← pyIterGen sd
      let active ← collectActive now items
      match items.getLast? with
      | none => (.error .unboundLocal : Except PyErr (String × List JVal))
      | some lastSession => do
          let masked ← maskSessionInfoAttr lastSession active
          pure (toString active.length, masked) : Except PyErr (String × List JVal)) with
  | .ok r => r
  | .error _ => ("0", [])

/-- One entry of a JSON object holding an optional field: present fields
encode to a single key/value pair, absent fields to no pair at all. -/
def optEnc (k : String) (f : α → JVal) (o : Option α) : List (String × JVal) :=
  match o with
  | some x => [(k, f x)]
  | none => []

/-- A well-typed `MediaStream` record (spec section 3). -/
structure MediaStream where
  type : Option String := none
  Codec : Option String := none
  Index : Option Int := none
  IsDefault : Option Bool := none
  IsForced : Option Bool := none
  IsInterlaced : Option Bool := none
  Width : Option Int := none
  Height : Option Int := none
  BitRate : Option Int := none
  Channels : Option Int := none
  AverageFrameRate : Option Int := none
  Language : Option String := none
  AspectRatio : Option String := none
  VideoRange : Option String := none

/-- Encode a media stream as its JSON object. -/
def encMS (m : MediaStream) : JVal :=
  .obj (optEnc "Type" JVal.str m.type ++
        optEnc "Codec" JVal.str m.Codec ++
        optEnc "Index" JVal.int m.Index ++
        optEnc "IsDefault" JVal.bool m.IsDefault ++
        optEnc "IsForced" JVal.bool m.IsForced ++
        optEnc "IsInterlaced" JVal.bool m.IsInterlaced ++
        optEnc "Width" JVal.int m.Width ++
        optEnc "Height" JVal.int m.Height ++
        optEnc "BitRate" JVal.int m.BitRate ++
        optEnc "Channels" JVal.int m.Channels ++
        optEnc "AverageFrameRate" JVal.int m.AverageFrameRate ++
        optEnc "Language" JVal.str m.Language ++
        optEnc "AspectRatio" JVal.str m.AspectRatio ++
        optEnc "VideoRange" JVal.str m.VideoRange)

/-- A well-typed `ImageTags` sub-object. -/
structure ImageTagsR where
  Primary : Option String := none

/-- Encode the image-tag sub-object. -/
def encIT (t : ImageTagsR) : JVal :=
  .obj (optEnc "Primary" JVal.str t.Primary)

/-- A well-typed `NowPlayingItem` record (spec section 3). -/
structure NowPlayingItemR where
  Id : Option String := none
  Name : Option String := none
  type : Option String := none
  SeriesName : Option String := none
  Album : Option String := none
  OriginalTitle : Option String := none
  PremiereDate : Option String := none
  DateCreated : Option String := none
  Container : Option String := none
  SeasonId : Option String := none
  AlbumId : Option String := none
  SeriesId : Option String := none
  AlbumArtistId : Option String := none
  AlbumArtist : Option String := none
  ParentId : Option String := none
  LiveStreamId : Option String := none
  ChannelName : Option String := none
  ChannelId : Option String := none
  ProductionYear : Option Int := none
  IndexNumber : Option Int := none
  ParentIndexNumber : Option Int := none
  RunTimeTicks : Option Int := none
  Bitrate : Option Int := none
  IsLive : Option Bool := none
  MediaStreams : Option (List MediaStream) := none
  ImageTags : Option ImageTagsR := none

/-- Encode a playing item as its JSON object. -/
def encItem (i : NowPlayingItemR) : JVal :=
  .obj (optEnc "Id" JVal.str i.Id ++
        optEnc "Name" JVal.str i.Name ++
        optEnc "Type" JVal.str i.type ++
        optEnc "SeriesName" JVal.str i.SeriesName ++
        optEnc "Album" JVal.str i.Album ++
        optEnc "OriginalTitle" JVal.str i.OriginalTitle ++
        optEnc "PremiereDate" JVal.str i.PremiereDate ++
        optEnc "DateCreated" JVal.str i.DateCreated ++
        optEnc "Container" JVal.str i.Container ++
        optEnc "SeasonId" JVal.str i.SeasonId ++
        optEnc "AlbumId" JVal.str i.AlbumId ++
        optEnc "SeriesId" JVal.str i.SeriesId ++
        optEnc "AlbumArtistId" JVal.str i.AlbumArtistId ++
        optEnc "AlbumArtist" JVal.str i.AlbumArtist ++
        optEnc "ParentId" JVal.str i.ParentId ++
        optEnc "LiveStreamId" JVal.str i.LiveStreamId ++
        optEnc "ChannelName" JVal.str i.ChannelName ++
        optEnc "ChannelId" JVal.str i.ChannelId ++
        optEnc "ProductionYear" JVal.int i.ProductionYear ++
        optEnc "IndexNumber" JVal.int i.IndexNumber ++
        optEnc "ParentIndexNumber" JVal.int i.ParentIndexNumber ++
        optEnc "RunTimeTicks" JVal.int i.RunTimeTicks ++
        optEnc "Bitrate" JVal.int i.Bitrate ++
        optEnc "IsLive" JVal.bool i.IsLive ++
        optEnc "MediaStreams" (fun l => .arr (l.map encMS)) i.MediaStreams ++
        optEnc "ImageTags" encIT i.ImageTags)

/-- A well-typed `PlayState` record (spec section 3).  `PlayMethod` is kept
as an arbitrary JSON value: the code only ever compares it for equality,
so no type restriction is needed for well-typedness. -/
structure PlayStateR where
  PositionTicks : Option Int := none
  IsPaused : Option Bool := none
  PlayMethod : Option JVal := none
  SubtitleStreamIndex : Option Int := none

/-- Encode a play state as its JSON object. -/
def encPS (p : PlayStateR) : JVal :=
  .obj (optEnc "PositionTicks" JVal.int p.PositionTicks ++
        optEnc "IsPaused" JVal.bool p.IsPaused ++
        optEnc "PlayMethod" id p.PlayMethod ++
        optEnc "SubtitleStreamIndex" JVal.int p.SubtitleStreamIndex)

/-- A well-typed raw session record (spec section 3). -/
structure RawSession where
  Id : Option String := none
  UserId : Option String := none
  UserName : Option String := none
  Client : Option String := none
  DeviceName : Option String := none
  DeviceId : Option String := none
  RemoteEndPoint : Option String := none
  Protocol : Option String := none
  PlayState : Option PlayStateR := none
  NowPlayingItem : Option NowPlayingItemR := none

/-- Encode a raw session as its JSON object. -/
def encSession (r : RawSession) : JVal :=
  .obj (optEnc "Id" JVal.str r.Id ++
        optEnc "UserId" JVal.str r.UserId ++
        optEnc "UserName" JVal.str r.UserName ++
        optEnc "Client" JVal.str r.Client ++
        optEnc "DeviceName" JVal.str r.DeviceName ++
        optEnc "DeviceId" JVal.str r.DeviceId ++
        optEnc "RemoteEndPoint" JVal.str r.RemoteEndPoint ++
        optEnc "Protocol" JVal.str r.Protocol ++
        optEnc "PlayState" encPS r.PlayState ++
        optEnc "NowPlayingItem" encItem r.NowPlayingItem)

/-- A well-typed raw library record (spec section 3). -/
structure RawLibrary where
  ItemId : Option String := none
  Name : Option String := none
  CollectionType : Option String := none
  Locations : Option (List String) := none

/-- Encode a raw library as its JSON object. -/
def encLib (r : RawLibrary) : JVal :=
  .obj (optEnc "ItemId" JVal.str r.ItemId ++
        optEnc "Name" JVal.str r.Name ++
        optEnc "CollectionType" JVal.str r.CollectionType ++
        optEnc "Locations" (fun l => .arr (l.map JVal.str)) r.Locations)

/-- Look a key up in the object produced by a (possibly failed)
normalization: the canonical way the claims below read one output field. -/
def getField (e : Except PyErr JVal) (k : String) : Except PyErr (Option JVal) :=
  e.map fun v =>
    match v with
    | .obj kvs => jlookup kvs k
    | _ => none

/-- Specification-level election predicate: the first stream tagged
`Video` (spec section 3, stream-selection invariant). -/
def msIsVideo (m : MediaStream) : Bool :=
  match m.type with
  | some t => t == "Video"
  | none => false

/-- Specification-level election predicate: the first stream tagged
`Audio` that is flagged default. -/
def msIsDefaultAudio (m : MediaStream) : Bool :=
  match m.type with
  | some t => t == "Audio" && m.IsDefault.getD false
  | none => false

/-- Specification-level election predicate: a stream tagged `Subtitle`
whose index equals the active subtitle index. -/
def msIsActiveSub (ssi : Int) (m : MediaStream) : Bool :=
  match m.type, m.Index with
  | some t, some i => t == "Subtitle" && i == ssi
  | _, _ => false

/-- The value of an elected stream: the encoded winner, or the empty-dict
default when no stream matched. -/
def streamJ (o : Option MediaStream) : JVal := o.elim (.obj []) encMS

/-- Field access on an elected stream: the looked-up value on a winner,
the default on the empty-dict fallback. -/
def streamGet (o : Option MediaStream) (k : String) (d : JVal) : JVal :=
  match o with
  | none => d
  | some m =>
      (jlookup (optEnc "Type" JVal.str m.type ++
        optEnc "Codec" JVal.str m.Codec ++
        optEnc "Index" JVal.int m.Index ++
        optEnc "IsDefault" JVal.bool m.IsDefault ++
        optEnc "IsForced" JVal.bool m.IsForced ++
        optEnc "IsInterlaced" JVal.bool m.IsInterlaced ++
        optEnc "Width" JVal.int m.Width ++
        optEnc "Height" JVal.int m.Height ++
        optEnc "BitRate" JVal.int m.BitRate ++
        optEnc "Channels" JVal.int m.Channels ++
        optEnc "AverageFrameRate" JVal.int m.AverageFrameRate ++
        optEnc "Language" JVal.str m.Language ++
        optEnc "AspectRatio" JVal.str m.AspectRatio ++
        optEnc "VideoRange" JVal.str m.VideoRange) k).getD d

/-- Truthiness of an optional integer field (absent or zero is falsy). -/
def optIntTruthy (o : Option Int) : Bool :=
  match o with
  | some n => n != 0
  | none => false

/-- Python equality of a JSON value with a fixed string. -/
def isStrEq (v : JVal) (s : String) : Bool :=
  match v with
  | .str t => t == s
  | _ => false

/-- Modelled from the spec (transcode-decision lookup, section 4.2 step 5),
amended for the absent-key default found in the code: an absent
`PlayMethod` falls back to `DirectPlay`, so it classifies as
`"direct play"`; a present value maps `DirectPlay` to `"direct play"`,
`DirectStream` to `"copy"`, anything else to `"transcode"`. -/
def transcodeDecisionSpec (pm : Option JVal) : String :=
  match pm with
  | none => "direct play"
  | some v =>
      if isStrEq v "DirectPlay" then "direct play"
      else if isStrEq v "DirectStream" then "copy"
      else "transcode"

/-- Modelled from the spec (full-title synthesis, section 4.2 step 6),
with the spec's "present" requirements tightened to Python truthiness
(non-empty strings, nonzero numbers) as the code actually tests. -/
def fullTitleSpec (i : NowPlayingItemR) : JVal :=
  let lt := strLower (i.type.getD "")
  let series := i.SeriesName.getD ""
  let title := i.Name.getD ""
  if lt = "episode" then
    if series != "" && optIntTruthy i.ParentIndexNumber && optIntTruthy i.IndexNumber
        && (title != "") then
      .str (series ++ " - s" ++ fmt02dInt (i.ParentIndexNumber.getD 0) ++ "e"
            ++ fmt02dInt (i.IndexNumber.getD 0) ++ " - " ++ title)
    else if series != "" && title != "" then
      .str (series ++ " - " ++ title)
    else .str title
  else if lt = "movie" then
    if title != "" && optIntTruthy i.ProductionYear then
      .str (title ++ " (" ++ toString (i.ProductionYear.getD 0) ++ ")")
    else .str title
  else if lt = "track" then
    if i.AlbumArtist.getD "" != "" && title != "" then
      .str (i.AlbumArtist.getD "" ++ " - " ++ title)
    else .str title
  else .str title

/-- Python `str()` of an optional string with `None` fallback. -/
def optStrOrNone (o : Option String) : String :=
  match o with
  | some s => s
  | none => "None"

/-- Specification-side media-type classification (spec section 4.2 step 4):
lower-cased type through the fixed lookup. -/
def mediaTypeSpec (t : Option String) : String :=
  let s := strLower (t.getD "")
  if s = "episode" then "episode"
  else if s = "movie" then "movie"
  else if s = "track" then "track"
  else if s = "photo" then "photo"
  else if s = "channel" ∨ s = "program" then "live"
  else "clip"

/-- Canonical identity/device fields of a normalized session. -/
def canonIdent (r : RawSession) (i : NowPlayingItemR) : List (String × JVal) :=
  [("session_key", .str (r.Id.getD "")),
   ("session_id", .str (r.Id.getD "")),
   ("transcode_key", .str ""),
   ("rating_key", .str (i.Id.getD "")),
   ("rating_key_websocket", .str (i.Id.getD "")),
   ("user_id", .str (r.UserId.getD "")),
   ("user", .str (r.UserName.getD "")),
   ("friendly_name", .str (r.DeviceName.getD "")),
   ("player", .str (r.Client.getD "")),
   ("product", .str (r.Client.getD "")),
   ("platform", .str (strLower (stripSpaces (r.Client.getD "")))),
   ("machine_id", .str (r.DeviceId.getD "")),
   ("ip_address",
     if r.RemoteEndPoint.getD "" != "" then .str (upToColon (r.RemoteEndPoint.getD ""))
     else .str "")]

/-- Canonical media-descriptor fields of a normalized session. -/
def canonMedia (now : Int) (i : NowPlayingItemR) : List (String × JVal) :=
  [("media_type", .str (mediaTypeSpec i.type)),
   ("section_id", .str (i.ParentId.getD "")),
   ("title", .str (i.Name.getD "")),
   ("parent_title", pyOr (.str (i.SeriesName.getD "")) (.str (i.Album.getD ""))),
   ("grandparent_title", .str (i.SeriesName.getD "")),
   ("original_title", .str (i.OriginalTitle.getD "")),
   ("full_title", fullTitleSpec i),
   ("year", (i.ProductionYear.map JVal.int).getD (.str "")),
   ("originally_available_at", .str (i.PremiereDate.getD "")),
   ("added_at", if i.DateCreated.getD "" != "" then .int now else .str ""),
   ("guid", .str (i.Id.getD "")),
   ("parent_rating_key", pyOr (.str (i.SeasonId.getD "")) (.str (i.AlbumId.getD ""))),
   ("grandparent_rating_key", pyOr (.str (i.SeriesId.getD "")) (.str (i.AlbumArtistId.getD ""))),
   ("media_index", (i.IndexNumber.map JVal.int).getD (.str "")),
   ("parent_media_index", (i.ParentIndexNumber.map JVal.int).getD (.str ""))]

/-- Canonical playback-state fields of a normalized session. -/
def canonState (now : Int) (o : Option PlayStateR) (i : NowPlayingItemR) :
    List (String × JVal) :=
  [("state", .str (if (o.bind PlayStateR.IsPaused).getD false then "paused" else "playing")),
   ("view_offset", .int (Int.tdiv ((o.bind PlayStateR.PositionTicks).getD 0) 10000)),
   ("duration", .int (Int.tdiv (i.RunTimeTicks.getD 0) 10000)),
   ("started", .int now),
   ("stopped", .null),
   ("paused_counter", .int 0),
   ("transcode_decision", .str (transcodeDecisionSpec (o.bind PlayStateR.PlayMethod))),
   ("video_decision",
     .str (if isStrEq ((o.bind PlayStateR.PlayMethod).getD .null) "DirectPlay"
           then "direct play" else "copy")),
   ("audio_decision",
     .str (if isStrEq ((o.bind PlayStateR.PlayMethod).getD .null) "DirectPlay"
           then "direct play" else "copy")),
   ("quality_profile", .str "")]

/-- Canonical elected-video fields of a normalized session. -/
def canonVideo (ov : Option MediaStream) (i : NowPlayingItemR) : List (String × JVal) :=
  [("width", streamGet ov "Width" (.str "")),
   ("height", streamGet ov "Height" (.str "")),
   ("container", .str (i.Container.getD "")),
   ("bitrate", (i.Bitrate.map JVal.int).getD (.str "")),
   ("video_codec", streamGet ov "Codec" (.str "")),
   ("video_bitrate", streamGet ov "BitRate" (.str "")),
   ("video_width", streamGet ov "Width" (.str "")),
   ("video_height", streamGet ov "Height" (.str "")),
   ("video_resolution",
     if truthy (streamGet ov "Height" .null) then .str (pyStr (streamGet ov "Height" (.str "")) ++ "p")
     else .str ""),
   ("video_framerate",
     if truthy (streamGet ov "AverageFrameRate" .null)
     then .str (pyStr (streamGet ov "AverageFrameRate" (.str ""))) else .str ""),
   ("video_scan_type",
     .str (if truthy (streamGet ov "IsInterlaced" .null) then "interlaced" else "progressive")),
   ("video_full_resolution",
     if truthy (streamGet ov "Width" .null) && truthy (streamGet ov "Height" .null) then
       .str (pyStr (streamGet ov "Width" (.str "")) ++ "x" ++ pyStr (streamGet ov "Height" (.str "")))
     else .str ""),
   ("video_dynamic_range", streamGet ov "VideoRange" (.str "")),
   ("aspect_ratio", streamGet ov "AspectRatio" (.str ""))]

/-- Canonical audio/subtitle fields of a normalized session. -/
def canonAudioSub (oa os : Option MediaStream) (o : Option PlayStateR) :
    List (String × JVal) :=
  [("audio_codec", streamGet oa "Codec" (.str "")),
   ("audio_bitrate", streamGet oa "BitRate" (.str "")),
   ("audio_channels", streamGet oa "Channels" (.str "")),
   ("audio_language", streamGet oa "Language" (.str "")),
   ("audio_language_code", streamGet oa "Language" (.str "")),
   ("subtitle_codec", streamGet os "Codec" (.str "")),
   ("subtitle_forced", .int (if truthy (streamGet os "IsForced" .null) then 1 else 0)),
   ("subtitle_language", streamGet os "Language" (.str "")),
   ("subtitles",
     .int (if 0 ≤ (o.bind PlayStateR.SubtitleStreamIndex).getD (-1) then 1 else 0))]

/-- Canonical stream-information fields of a normalized session. -/
def canonStream (ov oa os : Option MediaStream) (o : Option PlayStateR)
    (i : NowPlayingItemR) : List (String × JVal) :=
  [("transcode_protocol", .str ""),
   ("transcode_container", .str ""),
   ("transcode_video_codec", .str ""),
   ("transcode_audio_codec", .str ""),
   ("transcode_audio_channels", .str ""),
   ("transcode_width", .str ""),
   ("transcode_height", .str ""),
   ("transcode_hw_decoding", .str ""),
   ("transcode_hw_encoding", .str ""),
   ("stream_bitrate", streamGet ov "BitRate" (.str "")),
   ("stream_video_resolution",
     if truthy (streamGet ov "Height" .null) then .str (pyStr (streamGet ov "Height" (.str "")) ++ "p")
     else .str ""),
   ("stream_container_decision",
     .str (if isStrEq ((o.bind PlayStateR.PlayMethod).getD .null) "DirectPlay"
           then "direct play" else "copy")),
   ("stream_container", .str (i.Container.getD "")),
   ("stream_video_decision",
     .str (if isStrEq ((o.bind PlayStateR.PlayMethod).getD .null) "DirectPlay"
           then "direct play" else "copy")),
   ("stream_video_codec", streamGet ov "Codec" (.str "")),
   ("stream_video_bitrate", streamGet ov "BitRate" (.str "")),
   ("stream_video_width", streamGet ov "Width" (.str "")),
   ("stream_video_height", streamGet ov "Height" (.str "")),
   ("stream_video_framerate",
     if truthy (streamGet ov "AverageFrameRate" .null)
     then .str (pyStr (streamGet ov "AverageFrameRate" (.str ""))) else .str ""),
   ("stream_video_scan_type",
     .str (if truthy (streamGet ov "IsInterlaced" .null) then "interlaced" else "progressive")),
   ("stream_video_full_resolution",
     if truthy (streamGet ov "Width" .null) && truthy (streamGet ov "Height" .null) then
       .str (pyStr (streamGet ov "Width" (.str "")) ++ "x" ++ pyStr (streamGet ov "Height" (.str "")))
     else .str ""),
   ("stream_video_dynamic_range", streamGet ov "VideoRange" (.str "")),
   ("stream_audio_decision",
     .str (if isStrEq ((o.bind PlayStateR.PlayMethod).getD .null) "DirectPlay"
           then "direct play" else "copy")),
   ("stream_audio_codec", streamGet oa "Codec" (.str "")),
   ("stream_audio_bitrate", streamGet oa "BitRate" (.str "")),
   ("stream_audio_channels", streamGet oa "Channels" (.str "")),
   ("stream_audio_language", streamGet oa "Language" (.str "")),
   ("stream_audio_language_code", streamGet oa "Language" (.str "")),
   ("stream_subtitle_decision",
     .str (if (o.bind PlayStateR.SubtitleStreamIndex).getD (-1) < 0 then "none" else "burn")),
   ("stream_subtitle_codec", streamGet os "Codec" (.str "")),
   ("stream_subtitle_forced", .int (if truthy (streamGet os "IsForced" .null) then 1 else 0)),
   ("stream_subtitle_language", streamGet os "Language" (.str ""))]

/-- Canonical artwork/network/flag fields of a normalized session. -/
def canonTail (r : RawSession) (i : NowPlayingItemR) : List (String × JVal) :=
  [("thumb",
     if (i.ImageTags.bind ImageTagsR.Primary).getD "" != "" then
       .str ("/emby/Items/" ++ optStrOrNone i.Id ++ "/Images/Primary")
     else .str ""),
   ("parent_thumb",
     if i.ParentId.getD "" != "" then
       .str ("/emby/Items/" ++ optStrOrNone i.ParentId ++ "/Images/Primary")
     else .str ""),
   ("grandparent_thumb",
     if i.SeriesId.getD "" != "" then
       .str ("/emby/Items/" ++ optStrOrNone i.SeriesId ++ "/Images/Primary")
     else .str ""),
   ("bandwidth", .int 0),
   ("location", .str "lan"),
   ("secure", .int (if isStrEq ((r.Protocol.map JVal.str).getD .null) "HTTPS" then 1 else 0)),
   ("relayed", .int 0),
   ("live", .int (if i.IsLive.getD false then 1 else 0)),
   ("live_uuid", .str (i.LiveStreamId.getD "")),
   ("channel_call_sign", .str (i.ChannelName.getD "")),
   ("channel_id", .str (i.ChannelId.getD "")),
   ("channel_identifier", .str (i.ChannelId.getD "")),
   ("channel_title", .str (i.ChannelName.getD "")),
   ("channel_thumb", .str ""),
   ("channel_vcn", .str ""),
   ("synced_version", .int 0),
   ("synced_version_profile", .str ""),
   ("optimized_version", .int 0),
   ("optimized_version_profile", .str ""),
   ("optimized_version_title", .str ""),
   ("buffer_count", .int 0),
   ("buffer_last_triggered", .int 0),
   ("last_paused", .int 0),
   ("watched", .int 0),
   ("intro", .int 0),
   ("credits", .int 0),
   ("commercial", .int 0),
   ("marker", .int 0),
   ("initial_stream", .int 1),
   ("write_attempts", .int 0),
   ("raw_stream_info", .str (dumps (encSession r)))]

/-- The full canonical field list of a normalized session. -/
def canonSession (now : Int) (r : RawSession) (i : NowPlayingItemR) :
    List (String × JVal) :=
  canonIdent r i ++ canonMedia now i ++
  canonState now r.PlayState i ++
  canonVideo ((i.MediaStreams.getD []).find? msIsVideo) i ++
  canonAudioSub ((i.MediaStreams.getD []).find? msIsDefaultAudio)
    ((i.MediaStreams.getD []).find?
      (msIsActiveSub ((r.PlayState.bind PlayStateR.SubtitleStreamIndex).getD (-1))))
    r.PlayState ++
  canonStream ((i.MediaStreams.getD []).find? msIsVideo)
    ((i.MediaStreams.getD []).find? msIsDefaultAudio)
    ((i.MediaStreams.getD []).find?
      (msIsActiveSub ((r.PlayState.bind PlayStateR.SubtitleStreamIndex).getD (-1))))
    r.PlayState i ++
  canonTail r i

/-- Drop the entries of an object whose keys are in the exclusion list;
non-objects are returned unchanged. -/
def eraseKeys (ex : List String) : JVal → JVal
  | .obj kvs => .obj (kvs.filter fun kv => !(ex.contains kv.1))
  | v => v

/-- Modelled from the spec (library classification, sections 3 and 4.4):
the fixed case-insensitive lookup from collection-type strings to section
types, with unmapped or absent strings resolving to `"mixed"`. -/
def sectionTypeSpec (ct : Option String) : String :=
  let s := strLower (ct.getD "")
  if s = "movies" then "movie"
  else if s = "tvshows" then "show"
  else if s = "music" then "artist"
  else if s = "photos" then "photo"
  else if s = "books" then "photo"
  else if s = "homevideos" then "movie"
  else if s = "musicvideos" then "movie"
  else if s = "mixed" then "mixed"
  else "mixed"

/-- Specification-side `;`-join of a list of location strings. -/
def strJoinSemicolon : List String → String
  | [] => ""
  | [s] => s
  | s :: y :: rest => s ++ ";" ++ strJoinSemicolon (y :: rest)

/-- Canonical field list of a normalized library record. -/
def canonLibrary (now : Int) (r : RawLibrary) : List (String × JVal) :=
  [("section_id", .str (r.ItemId.getD "")),
   ("section_name", .str (r.Name.getD "")),
   ("section_type", .str (sectionTypeSpec r.CollectionType)),
   ("agent", .str "com.plexapp.agents.none"),
   ("scanner", .str "Emby Media Scanner"),
   ("language", .str "en"),
   ("uuid", .str (r.ItemId.getD "")),
   ("library_art", .str ""),
   ("library_thumb", .str ""),
   ("parent_count", .int 0),
   ("child_count", .int 0),
   ("primary_key", .str (r.ItemId.getD "")),
   ("show_advanced", .int 1),
   ("show_hidden", .int 0),
   ("deleted_section", .int 0),
   ("section_deleted", .int 0),
   ("custom_art_url", .str ""),
   ("custom_thumb_url", .str ""),
   ("refreshing", .int 0),
   ("sync_to_users", .int 1),
   ("count", .int 0),
   ("item_count", .int 0),
   ("created_at", .int now),
   ("updated_at", .int now),
   ("last_accessed", .int now),
   ("last_scanned", .int now),
   ("locations",
     .str (dumps ((r.Locations.map fun l => JVal.arr (l.map JVal.str)).getD (.arr [])))),
   ("paths", .str (strJoinSemicolon (r.Locations.getD []))),
   ("collection_type", .str (r.CollectionType.getD "")),
   ("library_id", .str (r.ItemId.getD "")),
   ("refresh_enabled", .int 1),
   ("enable_auto_sort", .int 1),
   ("enable_chapter_image_generation", .int 1),
   ("include_in_dashboard", .int 1),
   ("is_active", .int 1),
   ("keep_history", .int 1),
   ("row_id", .null)]

/-! ## Theorems -/

/-- Lookup skips an optional entry with a different key. -/
theorem jlookup_optEnc_ne (k q : String) (f : α → JVal) (o : Option α)
    (rest : List (String × JVal)) (h : q ≠ k) :
    jlookup (optEnc k f o ++ rest) q = jlookup rest q := by
  cases o <;> simp [optEnc, jlookup, Ne.symm h]

/-- Lookup hits an optional entry with the matching key, falling through
when the field is absent. -/
theorem jlookup_optEnc_eq (k : String) (f : α → JVal) (o : Option α)
    (rest : List (String × JVal)) :
    jlookup (optEnc k f o ++ rest) k = (o.map f).or (jlookup rest k) := by
  cases o <;> simp [optEnc, jlookup]

/-- Trailing-entry variant of `jlookup_optEnc_ne`. -/
theorem jlookup_optEnc_ne_nil (k q : String) (f : α → JVal) (o : Option α) (h : q ≠ k) :
    jlookup (optEnc k f o) q = none := by
  cases o <;> simp [optEnc, jlookup, Ne.symm h]

/-- Trailing-entry variant of `jlookup_optEnc_eq`. -/
theorem jlookup_optEnc_eq_nil (k : String) (f : α → JVal) (o : Option α) :
    jlookup (optEnc k f o) k = o.map f := by
  cases o <;> simp [optEnc, jlookup]

/-- `dict.get` on a literal object. -/
theorem pyGet_obj (kvs : List (String × JVal)) (k : String) (d : JVal) :
    pyGet (.obj kvs) k d = .ok ((jlookup kvs k).getD d) := rfl

/-- An `if` whose branches are both successful computations succeeds with
the conditional value. -/
theorem okIte (c : Prop) [Decidable c] (a b : JVal) :
    (if c then (Except.ok a : Except PyErr JVal) else .ok b) = .ok (if c then a else b) := by
  split <;> rfl

/-- Sequencing after a success steps into the continuation. -/
theorem bind_ok {α β : Type} (a : α) (f : α → Except PyErr β) :
    Bind.bind (Except.ok a) f = f a := rfl

/-- Sequencing after a failure propagates the failure. -/
theorem bind_err {α β : Type} (e : PyErr) (f : α → Except PyErr β) :
    Bind.bind (Except.error e) f = Except.error e := rfl

/-- The monadic unit is `Except.ok`. -/
theorem pure_eq_ok {α : Type} (a : α) : (pure a : Except PyErr α) = .ok a := rfl

/-- Congruence for sequencing: continuations that agree pointwise may be
exchanged under a bind. -/
theorem bindCongr {α β : Type} (x : Except PyErr α) (f g : α → Except PyErr β)
    (h : ∀ a, f a = g a) : Bind.bind x f = Bind.bind x g := by
  cases x <;> simp [Bind.bind, Except.bind, h]

/-- A pure post-processing map commutes into the continuation of a bind. -/
theorem exceptMapBind {α β γ : Type} (g : β → γ) (x : Except PyErr α)
    (f : α → Except PyErr β) :
    Except.map g (Bind.bind x f) = Bind.bind x fun a => Except.map g (f a) := by
  cases x <;> rfl

/-- A successful bind factors through some intermediate success value. -/
theorem peel {α β : Type} {x : Except PyErr α} {f : α → Except PyErr β} {v : β}
    (h : Bind.bind x f = .ok v) : ∃ a, f a = .ok v := by
  cases x with
  | ok a => exact ⟨a, h⟩
  | error e => simp [Bind.bind, Except.bind] at h

/-- Tick conversion on an integer is truncated division by 10000 (at 0 the
truthiness short-circuit and the division agree). -/
theorem ticks_to_ms_int (n : Int) :
    ticks_to_ms (.int n) = .ok (.int (Int.tdiv n 10000)) := by
  by_cases h : n = 0 <;> simp [ticks_to_ms, truthy, h]

/-- Comparison `>= 0` on an integer value. -/
theorem pyGeZero_int (n : Int) : pyGeZero (.int n) = .ok (decide (0 ≤ n)) := rfl

/-- Comparison `< 0` on an integer value. -/
theorem pyLtZero_int (n : Int) : pyLtZero (.int n) = .ok (decide (n < 0)) := rfl

/-- Lowercasing a string value succeeds. -/
theorem pyLower_str (s : String) : pyLower (.str s) = .ok (.str (strLower s)) := rfl

/-- Platform mangling of a string value succeeds. -/
theorem pyPlatform_str (s : String) :
    pyPlatform (.str s) = .ok (.str (strLower (stripSpaces s))) := rfl

/-- Host extraction from a string value succeeds. -/
theorem pySplitColonHead_str (s : String) :
    pySplitColonHead (.str s) = .ok (.str (upToColon s)) := rfl

/-- Zero-padded formatting of an integer value succeeds. -/
theorem fmt02d_int (n : Int) : fmt02d (.int n) = .ok (fmt02dInt n) := rfl

/-- Reading `PositionTicks` (default 0) out of an encoded optional play
state. -/
theorem psJ_PositionTicks (o : Option PlayStateR) :
    pyGet ((o.map encPS).getD (.obj [])) "PositionTicks" (.int 0)
      = .ok (.int ((o.bind PlayStateR.PositionTicks).getD 0)) := by
  rcases o with - | p
  · rfl
  · rcases p with ⟨pt, ip, pm, ssi⟩
    cases pt <;>
      simp [encPS, pyGet_obj, jlookup_optEnc_ne, jlookup_optEnc_eq, jlookup_optEnc_ne_nil,
        jlookup_optEnc_eq_nil]

/-- Reading `IsPaused` (default `None`) out of an encoded optional play
state. -/
theorem psJ_IsPaused (o : Option PlayStateR) :
    pyGet ((o.map encPS).getD (.obj [])) "IsPaused" .null
      = .ok (((o.bind PlayStateR.IsPaused).map JVal.bool).getD .null) := by
  rcases o with - | p
  · rfl
  · rcases p with ⟨pt, ip, pm, ssi⟩
    cases ip <;>
      simp [encPS, pyGet_obj, jlookup_optEnc_ne, jlookup_optEnc_eq, jlookup_optEnc_ne_nil,
        jlookup_optEnc_eq_nil]

/-- Reading `PlayMethod` (any default) out of an encoded optional play
state. -/
theorem psJ_PlayMethod (o : Option PlayStateR) (d : JVal) :
    pyGet ((o.map encPS).getD (.obj [])) "PlayMethod" d
      = .ok ((o.bind PlayStateR.PlayMethod).getD d) := by
  rcases o with - | p
  · rfl
  · rcases p with ⟨pt, ip, pm, ssi⟩
    cases pm <;>
      simp [encPS, pyGet_obj, jlookup_optEnc_ne, jlookup_optEnc_eq, jlookup_optEnc_ne_nil,
        jlookup_optEnc_eq_nil]

/-- Reading `SubtitleStreamIndex` (default -1) out of an encoded optional
play state. -/
theorem psJ_SubtitleStreamIndex (o : Option PlayStateR) :
    pyGet ((o.map encPS).getD (.obj [])) "SubtitleStreamIndex" (.int (-1))
      = .ok (.int ((o.bind PlayStateR.SubtitleStreamIndex).getD (-1))) := by
  rcases o with - | p
  · rfl
  · rcases p with ⟨pt, ip, pm, ssi⟩
    cases ssi <;>
      simp [encPS, pyGet_obj, jlookup_optEnc_ne, jlookup_optEnc_eq, jlookup_optEnc_ne_nil,
        jlookup_optEnc_eq_nil]

/-- Reading the `Primary` tag out of an encoded optional `ImageTags`. -/
theorem itJ_Primary (o : Option ImageTagsR) :
    pyGet ((o.map encIT).getD (.obj [])) "Primary" .null
      = .ok (((o.bind ImageTagsR.Primary).map JVal.str).getD .null) := by
  rcases o with - | t
  · rfl
  · rcases t with ⟨p⟩
    cases p <;> simp [encIT, pyGet_obj, jlookup_optEnc_eq_nil]

/-- Generator iteration over an encoded optional `MediaStreams` list. -/
theorem msIter (o : Option (List MediaStream)) :
    pyIterGen ((o.map fun l => JVal.arr (l.map encMS)).getD (.arr []))
      = .ok ((o.getD []).map encMS) := by
  cases o <;> rfl

/-- Generator iteration over a literal list value. -/
theorem pyIterGen_arr (xs : List JVal) : pyIterGen (.arr xs) = .ok xs := rfl

/-- The video predicate evaluated on an encoded stream. -/
theorem predVideo_encMS (m : MediaStream) : predVideo (encMS m) = .ok (msIsVideo m) := by
  rcases m with ⟨t, c, i, d, fo, il, w, h, br, ch, fr, la, ar, vr⟩
  rcases t with - | ts <;>
    simp [predVideo, encMS, pyGet_obj, jlookup_optEnc_ne, jlookup_optEnc_eq,
      jlookup_optEnc_ne_nil, jlookup_optEnc_eq_nil, pyEqB, msIsVideo, bind, Except.bind,
      pure, Except.pure]

/-- The default-audio predicate evaluated on an encoded stream. -/
theorem predAudio_encMS (m : MediaStream) : predAudio (encMS m) = .ok (msIsDefaultAudio m) := by
  rcases m with ⟨t, c, i, d, fo, il, w, h, br, ch, fr, la, ar, vr⟩
  rcases t with - | ts
  · simp [predAudio, encMS, pyGet_obj, jlookup_optEnc_ne, jlookup_optEnc_eq,
      jlookup_optEnc_ne_nil, jlookup_optEnc_eq_nil, pyEqB, msIsDefaultAudio, bind,
      Except.bind, pure, Except.pure]
  · rcases d with - | db <;>
      by_cases hA : ts = "Audio" <;>
        simp [predAudio, encMS, pyGet_obj, jlookup_optEnc_ne, jlookup_optEnc_eq,
          jlookup_optEnc_ne_nil, jlookup_optEnc_eq_nil, pyEqB, msIsDefaultAudio, bind,
          Except.bind, pure, Except.pure, truthy, hA]

/-- The active-subtitle predicate evaluated on an encoded stream, with the
play state an encoded optional record. -/
theorem predSub_encMS (o : Option PlayStateR) (m : MediaStream) :
    predSub ((o.map encPS).getD (.obj [])) (encMS m)
      = .ok (msIsActiveSub ((o.bind PlayStateR.SubtitleStreamIndex).getD (-1)) m) := by
  rcases m with ⟨t, c, i, d, fo, il, w, h, br, ch, fr, la, ar, vr⟩
  rcases t with - | ts
  · simp [predSub, encMS, pyGet_obj, jlookup_optEnc_ne, jlookup_optEnc_eq,
      jlookup_optEnc_ne_nil, jlookup_optEnc_eq_nil, pyEqB, msIsActiveSub, bind,
      Except.bind, pure, Except.pure]
  · rcases i with - | iv <;>
      by_cases hS : ts = "Subtitle" <;>
        simp [predSub, encMS, pyGet_obj, jlookup_optEnc_ne, jlookup_optEnc_eq,
          jlookup_optEnc_ne_nil, jlookup_optEnc_eq_nil, psJ_SubtitleStreamIndex, pyEqB,
          msIsActiveSub, bind, Except.bind, pure, Except.pure, hS]

/-- Election of the video stream over an encoded stream list. -/
theorem pyNext_video (l : List MediaStream) :
    pyNext (l.map encMS) predVideo (.obj []) = .ok (streamJ (l.find? msIsVideo)) := by
  induction l with
  | nil => simp [pyNext, streamJ]
  | cons m rest ih =>
      by_cases hm : msIsVideo m <;>
        simp [pyNext, predVideo_encMS, hm, List.find?, bind, Except.bind, pure, Except.pure,
          streamJ, ih]

/-- Election of the default audio stream over an encoded stream list. -/
theorem pyNext_audio (l : List MediaStream) :
    pyNext (l.map encMS) predAudio (.obj []) = .ok (streamJ (l.find? msIsDefaultAudio)) := by
  induction l with
  | nil => simp [pyNext, streamJ]
  | cons m rest ih =>
      by_cases hm : msIsDefaultAudio m <;>
        simp [pyNext, predAudio_encMS, hm, List.find?, bind, Except.bind, pure, Except.pure,
          streamJ, ih]

/-- Election of the active subtitle stream over an encoded stream list. -/
theorem pyNext_sub (o : Option PlayStateR) (l : List MediaStream) :
    pyNext (l.map encMS) (predSub ((o.map encPS).getD (.obj []))) (.obj [])
      = .ok (streamJ (l.find?
          (msIsActiveSub ((o.bind PlayStateR.SubtitleStreamIndex).getD (-1))))) := by
  induction l with
  | nil => simp [pyNext, streamJ]
  | cons m rest ih =>
      by_cases hm : msIsActiveSub ((o.bind PlayStateR.SubtitleStreamIndex).getD (-1)) m <;>
        simp [pyNext, predSub_encMS, hm, List.find?, bind, Except.bind, pure, Except.pure,
          streamJ, ih]

/-- Field access on an elected stream value reduces to `streamGet`. -/
theorem pyGet_streamJ (o : Option MediaStream) (k : String) (d : JVal) :
    pyGet (streamJ o) k d = .ok (streamGet o k d) := by
  cases o <;> rfl

/-- Key `Id` of an encoded RawSession. -/
theorem sessGet_Id (r : RawSession) (d : JVal) :
    pyGet (encSession r) "Id" d = .ok ((r.Id.map JVal.str).getD d) := by
  simp [encSession, pyGet_obj, jlookup_optEnc_eq, jlookup_optEnc_ne, jlookup_optEnc_ne_nil,
    jlookup_optEnc_eq_nil]

/-- Key `UserId` of an encoded RawSession. -/
theorem sessGet_UserId (r : RawSession) (d : JVal) :
    pyGet (encSession r) "UserId" d = .ok ((r.UserId.map JVal.str).getD d) := by
  simp [encSession, pyGet_obj, jlookup_optEnc_eq, jlookup_optEnc_ne, jlookup_optEnc_ne_nil,
    jlookup_optEnc_eq_nil]

/-- Key `UserName` of an encoded RawSession. -/
theorem sessGet_UserName (r : RawSession) (d : JVal) :
    pyGet (encSession r) "UserName" d = .ok ((r.UserName.map JVal.str).getD d) := by
  simp [encSession, pyGet_obj, jlookup_optEnc_eq, jlookup_optEnc_ne, jlookup_optEnc_ne_nil,
    jlookup_optEnc_eq_nil]

/-- Key `Client` of an encoded RawSession. -/
theorem sessGet_Client (r : RawSession) (d : JVal) :
    pyGet (encSession r) "Client" d = .ok ((r.Client.map JVal.str).getD d) := by
  simp [encSession, pyGet_obj, jlookup_optEnc_eq, jlookup_optEnc_ne, jlookup_optEnc_ne_nil,
    jlookup_optEnc_eq_nil]

/-- Key `DeviceName` of an encoded RawSession. -/
theorem sessGet_DeviceName (r : RawSession) (d : JVal) :
    pyGet (encSession r) "DeviceName" d = .ok ((r.DeviceName.map JVal.str).getD d) := by
  simp [encSession, pyGet_obj, jlookup_optEnc_eq, jlookup_optEnc_ne, jlookup_optEnc_ne_nil,
    jlookup_optEnc_eq_nil]

/-- Key `DeviceId` of an encoded RawSession. -/
theorem sessGet_DeviceId (r : RawSession) (d : JVal) :
    pyGet (encSession r) "DeviceId" d = .ok ((r.DeviceId.map JVal.str).getD d) := by
  simp [encSession, pyGet_obj, jlookup_optEnc_eq, jlookup_optEnc_ne, jlookup_optEnc_ne_nil,
    jlookup_optEnc_eq_nil]

/-- Key `RemoteEndPoint` of an encoded RawSession. -/
theorem sessGet_RemoteEndPoint (r : RawSession) (d : JVal) :
    pyGet (encSession r) "RemoteEndPoint" d = .ok ((r.RemoteEndPoint.map JVal.str).getD d) := by
  simp [encSession, pyGet_obj, jlookup_optEnc_eq, jlookup_optEnc_ne, jlookup_optEnc_ne_nil,
    jlookup_optEnc_eq_nil]

/-- Key `Protocol` of an encoded RawSession. -/
theorem sessGet_Protocol (r : RawSession) (d : JVal) :
    pyGet (encSession r) "Protocol" d = .ok ((r.Protocol.map JVal.str).getD d) := by
  simp [encSession, pyGet_obj, jlookup_optEnc_eq, jlookup_optEnc_ne, jlookup_optEnc_ne_nil,
    jlookup_optEnc_eq_nil]

/-- Key `PlayState` of an encoded RawSession. -/
theorem sessGet_PlayState (r : RawSession) (d : JVal) :
    pyGet (encSession r) "PlayState" d = .ok ((r.PlayState.map encPS).getD d) := by
  simp [encSession, pyGet_obj, jlookup_optEnc_eq, jlookup_optEnc_ne, jlookup_optEnc_ne_nil,
    jlookup_optEnc_eq_nil]

/-- Key `NowPlayingItem` of an encoded RawSession. -/
theorem sessGet_NowPlayingItem (r : RawSession) (d : JVal) :
    pyGet (encSession r) "NowPlayingItem" d = .ok ((r.NowPlayingItem.map encItem).getD d) := by
  simp [encSession, pyGet_obj, jlookup_optEnc_eq, jlookup_optEnc_ne, jlookup_optEnc_ne_nil,
    jlookup_optEnc_eq_nil]

/-- Key `Id` of an encoded NowPlayingItemR. -/
theorem itemGet_Id (i : NowPlayingItemR) (d : JVal) :
    pyGet (encItem i) "Id" d = .ok ((i.Id.map JVal.str).getD d) := by
  simp [encItem, pyGet_obj, jlookup_optEnc_eq, jlookup_optEnc_ne, jlookup_optEnc_ne_nil,
    jlookup_optEnc_eq_nil]

/-- Key `Name` of an encoded NowPlayingItemR. -/
theorem itemGet_Name (i : NowPlayingItemR) (d : JVal) :
    pyGet (encItem i) "Name" d = .ok ((i.Name.map JVal.str).getD d) := by
  simp [encItem, pyGet_obj, jlookup_optEnc_eq, jlookup_optEnc_ne, jlookup_optEnc_ne_nil,
    jlookup_optEnc_eq_nil]

/-- Key `Type` of an encoded NowPlayingItemR. -/
theorem itemGet_Type (i : NowPlayingItemR) (d : JVal) :
    pyGet (encItem i) "Type" d = .ok ((i.type.map JVal.str).getD d) := by
  simp [encItem, pyGet_obj, jlookup_optEnc_eq, jlookup_optEnc_ne, jlookup_optEnc_ne_nil,
    jlookup_optEnc_eq_nil]

/-- Key `SeriesName` of an encoded NowPlayingItemR. -/
theorem itemGet_SeriesName (i : NowPlayingItemR) (d : JVal) :
    pyGet (encItem i) "SeriesName" d = .ok ((i.SeriesName.map JVal.str).getD d) := by
  simp [encItem, pyGet_obj, jlookup_optEnc_eq, jlookup_optEnc_ne, jlookup_optEnc_ne_nil,
    jlookup_optEnc_eq_nil]

/-- Key `Album` of an encoded NowPlayingItemR. -/
theorem itemGet_Album (i : NowPlayingItemR) (d : JVal) :
    pyGet (encItem i) "Album" d = .ok ((i.Album.map JVal.str).getD d) := by
  simp [encItem, pyGet_obj, jlookup_optEnc_eq, jlookup_optEnc_ne, jlookup_optEnc_ne_nil,
    jlookup_optEnc_eq_nil]

/-- Key `OriginalTitle` of an encoded NowPlayingItemR. -/
theorem itemGet_OriginalTitle (i : NowPlayingItemR) (d : JVal) :
    pyGet (encItem i) "OriginalTitle" d = .ok ((i.OriginalTitle.map JVal.str).getD d) := by
  simp [encItem, pyGet_obj, jlookup_optEnc_eq, jlookup_optEnc_ne, jlookup_optEnc_ne_nil,
    jlookup_optEnc_eq_nil]

/-- Key `PremiereDate` of an encoded NowPlayingItemR. -/
theorem itemGet_PremiereDate (i : NowPlayingItemR) (d : JVal) :
    pyGet (encItem i) "PremiereDate" d = .ok ((i.PremiereDate.map JVal.str).getD d) := by
  simp [encItem, pyGet_obj, jlookup_optEnc_eq, jlookup_optEnc_ne, jlookup_optEnc_ne_nil,
    jlookup_optEnc_eq_nil]

/-- Key `DateCreated` of an encoded NowPlayingItemR. -/
theorem itemGet_DateCreated (i : NowPlayingItemR) (d : JVal) :
    pyGet (encItem i) "DateCreated" d = .ok ((i.DateCreated.map JVal.str).getD d) := by
  simp [encItem, pyGet_obj, jlookup_optEnc_eq, jlookup_optEnc_ne, jlookup_optEnc_ne_nil,
    jlookup_optEnc_eq_nil]

/-- Key `Container` of an encoded NowPlayingItemR. -/
theorem itemGet_Container (i : NowPlayingItemR) (d : JVal) :
    pyGet (encItem i) "Container" d = .ok ((i.Container.map JVal.str).getD d) := by
  simp [encItem, pyGet_obj, jlookup_optEnc_eq, jlookup_optEnc_ne, jlookup_optEnc_ne_nil,
    jlookup_optEnc_eq_nil]

/-- Key `SeasonId` of an encoded NowPlayingItemR. -/
theorem itemGet_SeasonId (i : NowPlayingItemR) (d : JVal) :
    pyGet (encItem i) "SeasonId" d = .ok ((i.SeasonId.map JVal.str).getD d) := by
  simp [encItem, pyGet_obj, jlookup_optEnc_eq, jlookup_optEnc_ne, jlookup_optEnc_ne_nil,
    jlookup_optEnc_eq_nil]

/-- Key `AlbumId` of an encoded NowPlayingItemR. -/
theorem itemGet_AlbumId (i : NowPlayingItemR) (d : JVal) :
    pyGet (encItem i) "AlbumId" d = .ok ((i.AlbumId.map JVal.str).getD d) := by
  simp [encItem, pyGet_obj, jlookup_optEnc_eq, jlookup_optEnc_ne, jlookup_optEnc_ne_nil,
    jlookup_optEnc_eq_nil]

/-- Key `SeriesId` of an encoded NowPlayingItemR. -/
theorem itemGet_SeriesId (i : NowPlayingItemR) (d : JVal) :
    pyGet (encItem i) "SeriesId" d = .ok ((i.SeriesId.map JVal.str).getD d) := by
  simp [encItem, pyGet_obj, jlookup_optEnc_eq, jlookup_optEnc_ne, jlookup_optEnc_ne_nil,
    jlookup_optEnc_eq_nil]

/-- Key `AlbumArtistId` of an encoded NowPlayingItemR. -/
theorem itemGet_AlbumArtistId (i : NowPlayingItemR) (d : JVal) :
    pyGet (encItem i) "AlbumArtistId" d = .ok ((i.AlbumArtistId.map JVal.str).getD d) := by
  simp [encItem, pyGet_obj, jlookup_optEnc_eq, jlookup_optEnc_ne, jlookup_optEnc_ne_nil,
    jlookup_optEnc_eq_nil]

/-- Key `AlbumArtist` of an encoded NowPlayingItemR. -/
theorem itemGet_AlbumArtist (i : NowPlayingItemR) (d : JVal) :
    pyGet (encItem i) "AlbumArtist" d = .ok ((i.AlbumArtist.map JVal.str).getD d) := by
  simp [encItem, pyGet_obj, jlookup_optEnc_eq, jlookup_optEnc_ne, jlookup_optEnc_ne_nil,
    jlookup_optEnc_eq_nil]

/-- Key `ParentId` of an encoded NowPlayingItemR. -/
theorem itemGet_ParentId (i : NowPlayingItemR) (d : JVal) :
    pyGet (encItem i) "ParentId" d = .ok ((i.ParentId.map JVal.str).getD d) := by
  simp [encItem, pyGet_obj, jlookup_optEnc_eq, jlookup_optEnc_ne, jlookup_optEnc_ne_nil,
    jlookup_optEnc_eq_nil]

/-- Key `LiveStreamId` of an encoded NowPlayingItemR. -/
theorem itemGet_LiveStreamId (i : NowPlayingItemR) (d : JVal) :
    pyGet (encItem i) "LiveStreamId" d = .ok ((i.LiveStreamId.map JVal.str).getD d) := by
  simp [encItem, pyGet_obj, jlookup_optEnc_eq, jlookup_optEnc_ne, jlookup_optEnc_ne_nil,
    jlookup_optEnc_eq_nil]

/-- Key `ChannelName` of an encoded NowPlayingItemR. -/
theorem itemGet_ChannelName (i : NowPlayingItemR) (d : JVal) :
    pyGet (encItem i) "ChannelName" d = .ok ((i.ChannelName.map JVal.str).getD d) := by
  simp [encItem, pyGet_obj, jlookup_optEnc_eq, jlookup_optEnc_ne, jlookup_optEnc_ne_nil,
    jlookup_optEnc_eq_nil]

/-- Key `ChannelId` of an encoded NowPlayingItemR. -/
theorem itemGet_ChannelId (i : NowPlayingItemR) (d : JVal) :
    pyGet (encItem i) "ChannelId" d = .ok ((i.ChannelId.map JVal.str).getD d) := by
  simp [encItem, pyGet_obj, jlookup_optEnc_eq, jlookup_optEnc_ne, jlookup_optEnc_ne_nil,
    jlookup_optEnc_eq_nil]

/-- Key `ProductionYear` of an encoded NowPlayingItemR. -/
theorem itemGet_ProductionYear (i : NowPlayingItemR) (d : JVal) :
    pyGet (encItem i) "ProductionYear" d = .ok ((i.ProductionYear.map JVal.int).getD d) := by
  simp [encItem, pyGet_obj, jlookup_optEnc_eq, jlookup_optEnc_ne, jlookup_optEnc_ne_nil,
    jlookup_optEnc_eq_nil]

/-- Key `IndexNumber` of an encoded NowPlayingItemR. -/
theorem itemGet_IndexNumber (i : NowPlayingItemR) (d : JVal) :
    pyGet (encItem i) "IndexNumber" d = .ok ((i.IndexNumber.map JVal.int).getD d) := by
  simp [encItem, pyGet_obj, jlookup_optEnc_eq, jlookup_optEnc_ne, jlookup_optEnc_ne_nil,
    jlookup_optEnc_eq_nil]

/-- Key `ParentIndexNumber` of an encoded NowPlayingItemR. -/
theorem itemGet_ParentIndexNumber (i : NowPlayingItemR) (d : JVal) :
    pyGet (encItem i) "ParentIndexNumber" d = .ok ((i.ParentIndexNumber.map JVal.int).getD d) := by
  simp [encItem, pyGet_obj, jlookup_optEnc_eq, jlookup_optEnc_ne, jlookup_optEnc_ne_nil,
    jlookup_optEnc_eq_nil]

/-- Key `RunTimeTicks` of an encoded NowPlayingItemR. -/
theorem itemGet_RunTimeTicks (i : NowPlayingItemR) (d : JVal) :
    pyGet (encItem i) "RunTimeTicks" d = .ok ((i.RunTimeTicks.map JVal.int).getD d) := by
  simp [encItem, pyGet_obj, jlookup_optEnc_eq, jlookup_optEnc_ne, jlookup_optEnc_ne_nil,
    jlookup_optEnc_eq_nil]

/-- Key `Bitrate` of an encoded NowPlayingItemR. -/
theorem itemGet_Bitrate (i : NowPlayingItemR) (d : JVal) :
    pyGet (encItem i) "Bitrate" d = .ok ((i.Bitrate.map JVal.int).getD d) := by
  simp [encItem, pyGet_obj, jlookup_optEnc_eq, jlookup_optEnc_ne, jlookup_optEnc_ne_nil,
    jlookup_optEnc_eq_nil]

/-- Key `IsLive` of an encoded NowPlayingItemR. -/
theorem itemGet_IsLive (i : NowPlayingItemR) (d : JVal) :
    pyGet (encItem i) "IsLive" d = .ok ((i.IsLive.map JVal.bool).getD d) := by
  simp [encItem, pyGet_obj, jlookup_optEnc_eq, jlookup_optEnc_ne, jlookup_optEnc_ne_nil,
    jlookup_optEnc_eq_nil]

/-- Key `MediaStreams` of an encoded NowPlayingItemR. -/
theorem itemGet_MediaStreams (i : NowPlayingItemR) (d : JVal) :
    pyGet (encItem i) "MediaStreams" d = .ok ((i.MediaStreams.map (fun l => JVal.arr (l.map encMS))).getD d) := by
  simp [encItem, pyGet_obj, jlookup_optEnc_eq, jlookup_optEnc_ne, jlookup_optEnc_ne_nil,
    jlookup_optEnc_eq_nil]

/-- Key `ImageTags` of an encoded NowPlayingItemR. -/
theorem itemGet_ImageTags (i : NowPlayingItemR) (d : JVal) :
    pyGet (encItem i) "ImageTags" d = .ok ((i.ImageTags.map encIT).getD d) := by
  simp [encItem, pyGet_obj, jlookup_optEnc_eq, jlookup_optEnc_ne, jlookup_optEnc_ne_nil,
    jlookup_optEnc_eq_nil]

/-- Key `ItemId` of an encoded RawLibrary. -/
theorem libGet_ItemId (r : RawLibrary) (d : JVal) :
    pyGet (encLib r) "ItemId" d = .ok ((r.ItemId.map JVal.str).getD d) := by
  simp [encLib, pyGet_obj, jlookup_optEnc_eq, jlookup_optEnc_ne, jlookup_optEnc_ne_nil,
    jlookup_optEnc_eq_nil]

/-- Key `Name` of an encoded RawLibrary. -/
theorem libGet_Name (r : RawLibrary) (d : JVal) :
    pyGet (encLib r) "Name" d = .ok ((r.Name.map JVal.str).getD d) := by
  simp [encLib, pyGet_obj, jlookup_optEnc_eq, jlookup_optEnc_ne, jlookup_optEnc_ne_nil,
    jlookup_optEnc_eq_nil]

/-- Key `CollectionType` of an encoded RawLibrary. -/
theorem libGet_CollectionType (r : RawLibrary) (d : JVal) :
    pyGet (encLib r) "CollectionType" d = .ok ((r.CollectionType.map JVal.str).getD d) := by
  simp [encLib, pyGet_obj, jlookup_optEnc_eq, jlookup_optEnc_ne, jlookup_optEnc_ne_nil,
    jlookup_optEnc_eq_nil]

/-- Key `Locations` of an encoded RawLibrary. -/
theorem libGet_Locations (r : RawLibrary) (d : JVal) :
    pyGet (encLib r) "Locations" d = .ok ((r.Locations.map (fun l => JVal.arr (l.map JVal.str))).getD d) := by
  simp [encLib, pyGet_obj, jlookup_optEnc_eq, jlookup_optEnc_ne, jlookup_optEnc_ne_nil,
    jlookup_optEnc_eq_nil]

/-- Python string equality on two string values. -/
theorem pyEqB_str_str (a b : String) : pyEqB (.str a) (.str b) = (a == b) := rfl

/-- Python `str()` of a string value. -/
theorem pyStr_str (s : String) : pyStr (.str s) = s := rfl

/-- Python `str()` of an integer value. -/
theorem pyStr_int (n : Int) : pyStr (.int n) = toString n := rfl

set_option maxHeartbeats 1600000 in
/-- On every well-typed playing item the title builder succeeds and
computes the specification's (truthiness-amended) full title. -/
theorem buildFullTitle_encItem (i : NowPlayingItemR) :
    buildFullTitle (encItem i) = .ok (fullTitleSpec i) := by
  rcases hP : i.ParentIndexNumber with - | pixv <;> rcases hI : i.IndexNumber with - | ixv <;>
    rcases hY : i.ProductionYear with - | pyv <;>
      simp only [buildFullTitle, fullTitleSpec, itemGet_Type, itemGet_SeriesName,
        itemGet_ParentIndexNumber, itemGet_IndexNumber, itemGet_Name, itemGet_ProductionYear,
        itemGet_AlbumArtist, hP, hI, hY, Option.getD_map, Option.map_none, Option.map_some,
        Option.getD_none, Option.getD_some, pyLower_str, pyEqB_str_str, fmt02d_int, fmt02d,
        okIte, optIntTruthy, pyStr_str, pyStr_int, bind_ok, bind_err, pure_eq_ok, truthy] <;>
      simp [truthy, optIntTruthy, okIte, pyStr_str, pyStr_int, bind_ok, bind_err, pure_eq_ok,
        fmt02d_int]

/-- A session that carries a playing item encodes to a non-empty (truthy)
JSON object. -/
theorem truthy_encSession_of_item (r : RawSession) (i : NowPlayingItemR)
    (h : r.NowPlayingItem = some i) : truthy (encSession r) = true := by
  simp [encSession, truthy, optEnc, h]

/-- An item with a `Name` encodes to a non-empty (truthy) JSON object. -/
theorem truthy_encItem_of_Name (i : NowPlayingItemR) (h : i.Name.isSome = true) :
    truthy (encItem i) = true := by
  rcases hn : i.Name with - | v
  · rw [hn] at h; cases h
  · simp [encItem, truthy, optEnc, hn]

/-- A library record with an `ItemId` encodes to a non-empty (truthy)
JSON object. -/
theorem truthy_encLib_of_ItemId (r : RawLibrary) (h : r.ItemId.isSome = true) :
    truthy (encLib r) = true := by
  rcases hx : r.ItemId with - | v
  · rw [hx] at h; cases h
  · simp [encLib, truthy, optEnc, hx]

attribute [irreducible] optEnc encMS encIT encItem encPS encSession encLib

/-- Truthiness of an encoded optional boolean with `None` fallback. -/
theorem truthy_optBool (o : Option Bool) :
    truthy ((o.map JVal.bool).getD .null) = o.getD false := by
  cases o <;> simp [truthy]

/-- Truthiness of an encoded optional string with `None` fallback. -/
theorem truthy_optStr (o : Option String) :
    truthy ((o.map JVal.str).getD .null) = (o.getD "" != "") := by
  cases o <;> simp [truthy]

/-- Python equality against a string literal is `isStrEq`. -/
theorem pyEqB_isStrEq (v : JVal) (s : String) : pyEqB v (.str s) = isStrEq v s := by
  cases v <;> rfl

/-- Rendering of an encoded optional string with `None` fallback. -/
theorem pyStr_optStr (o : Option String) :
    pyStr ((o.map JVal.str).getD .null) = optStrOrNone o := by
  cases o <;> rfl

/-- The media-type helper on an encoded item computes the specification
classification. -/
theorem gmt_enc (i : NowPlayingItemR) :
    get_media_type (encItem i) = .ok (.str (mediaTypeSpec i.type)) := by
  simp only [get_media_type, mediaTypeSpec, itemGet_Type, Option.getD_map, pyLower_str,
    bind_ok, pure_eq_ok]

/-- The transcode-decision conditional collapses to the specification
lookup table. -/
theorem transcodeIf (pm : Option JVal) :
    (if isStrEq (pm.getD (.str "DirectPlay")) "DirectPlay" then "direct play"
     else if isStrEq (pm.getD (.str "DirectPlay")) "DirectStream" then "copy"
     else "transcode")
      = transcodeDecisionSpec pm := by
  rcases pm with - | v
  · simp [transcodeDecisionSpec, isStrEq]
  · simp [transcodeDecisionSpec]

/-- The transcode-decision helper on an encoded optional play state
computes the (amended) specification lookup. -/
theorem gtd_enc (o : Option PlayStateR) :
    get_transcode_decision ((o.map encPS).getD (.obj []))
      = .ok (.str (transcodeDecisionSpec (o.bind PlayStateR.PlayMethod))) := by
  simp only [get_transcode_decision, psJ_PlayMethod, pyEqB_isStrEq, bind_ok, pure_eq_ok,
    transcodeIf]

set_option maxHeartbeats 1600000 in
/-- The identity chunk of the normalizer on encoded records. -/
theorem tsdIdent_enc (r : RawSession) (i : NowPlayingItemR) :
    tsdIdent (encSession r) (encItem i) = .ok (canonIdent r i) := by
  simp only [tsdIdent, canonIdent, sessGet_Id, sessGet_UserId, sessGet_UserName,
    sessGet_Client, sessGet_DeviceName, sessGet_DeviceId, sessGet_RemoteEndPoint,
    itemGet_Id, Option.getD_map, pyPlatform_str, pySplitColonHead_str, truthy_optStr,
    okIte, bind_ok, bind_err, pure_eq_ok]

set_option maxHeartbeats 1600000 in
/-- The media chunk of the normalizer on encoded records. -/
theorem tsdMedia_enc (now : Int) (i : NowPlayingItemR) :
    tsdMedia now (encItem i) = .ok (canonMedia now i) := by
  simp only [tsdMedia, canonMedia, gmt_enc, buildFullTitle_encItem, itemGet_ParentId,
    itemGet_Name, itemGet_SeriesName, itemGet_Album, itemGet_OriginalTitle,
    itemGet_ProductionYear, itemGet_PremiereDate, itemGet_DateCreated, itemGet_Id,
    itemGet_SeasonId, itemGet_AlbumId, itemGet_SeriesId, itemGet_AlbumArtistId,
    itemGet_IndexNumber, itemGet_ParentIndexNumber, Option.getD_map, truthy_optStr,
    okIte, bind_ok, bind_err, pure_eq_ok]

set_option maxHeartbeats 1600000 in
/-- The playback-state chunk of the normalizer on encoded records. -/
theorem tsdState_enc (now : Int) (o : Option PlayStateR) (i : NowPlayingItemR) :
    tsdState now ((o.map encPS).getD (.obj [])) (encItem i) = .ok (canonState now o i) := by
  simp only [tsdState, canonState, psJ_IsPaused, psJ_PositionTicks, psJ_PlayMethod,
    itemGet_RunTimeTicks, Option.getD_map, ticks_to_ms_int, gtd_enc, truthy_optBool,
    pyEqB_isStrEq, okIte, bind_ok, bind_err, pure_eq_ok]

set_option maxHeartbeats 1600000 in
/-- The video chunk of the normalizer on encoded records. -/
theorem tsdVideo_enc (ov : Option MediaStream) (i : NowPlayingItemR) :
    tsdVideo (streamJ ov) (encItem i) = .ok (canonVideo ov i) := by
  simp only [tsdVideo, canonVideo, pyGet_streamJ, itemGet_Container, itemGet_Bitrate,
    Option.getD_map, okIte, bind_ok, bind_err, pure_eq_ok]

set_option maxHeartbeats 1600000 in
/-- The audio/subtitle chunk of the normalizer on encoded records. -/
theorem tsdAudioSub_enc (oa os : Option MediaStream) (o : Option PlayStateR) :
    tsdAudioSub (streamJ oa) (streamJ os) ((o.map encPS).getD (.obj []))
      = .ok (canonAudioSub oa os o) := by
  simp only [tsdAudioSub, canonAudioSub, pyGet_streamJ, psJ_SubtitleStreamIndex,
    pyGeZero_int, decide_eq_true_eq, okIte, bind_ok, bind_err, pure_eq_ok]

set_option maxHeartbeats 1600000 in
/-- The stream-information chunk of the normalizer on encoded records. -/
theorem tsdStream_enc (ov oa os : Option MediaStream) (o : Option PlayStateR)
    (i : NowPlayingItemR) :
    tsdStream (streamJ ov) (streamJ oa) (streamJ os) ((o.map encPS).getD (.obj []))
        (encItem i)
      = .ok (canonStream ov oa os o i) := by
  simp only [tsdStream, canonStream, pyGet_streamJ, psJ_PlayMethod,
    psJ_SubtitleStreamIndex, itemGet_Container, Option.getD_map, pyLtZero_int,
    pyEqB_isStrEq, decide_eq_true_eq, okIte, bind_ok, bind_err, pure_eq_ok]

set_option maxHeartbeats 1600000 in
/-- The tail chunk of the normalizer on encoded records. -/
theorem tsdTail_enc (r : RawSession) (i : NowPlayingItemR) :
    tsdTail (encSession r) (encItem i) = .ok (canonTail r i) := by
  simp only [tsdTail, canonTail, itemGet_ImageTags, itJ_Primary, itemGet_Id,
    itemGet_ParentId, itemGet_SeriesId, sessGet_Protocol, itemGet_IsLive,
    itemGet_LiveStreamId, itemGet_ChannelName, itemGet_ChannelId, Option.getD_map,
    truthy_optStr, truthy_optBool, pyStr_optStr, pyEqB_isStrEq, okIte, bind_ok,
    bind_err, pure_eq_ok]

set_option maxHeartbeats 1600000 in
/-- The extraction prologue on an encoded session carrying a playing item. -/
theorem tsdPre_enc (r : RawSession) (i : NowPlayingItemR) (h : r.NowPlayingItem = some i) :
    tsdPre (encSession r) = .ok
      ((r.PlayState.map encPS).getD (.obj []), encItem i,
       streamJ ((i.MediaStreams.getD []).find? msIsVideo),
       streamJ ((i.MediaStreams.getD []).find? msIsDefaultAudio),
       streamJ ((i.MediaStreams.getD []).find?
         (msIsActiveSub ((r.PlayState.bind PlayStateR.SubtitleStreamIndex).getD (-1))))) := by
  simp only [tsdPre, sessGet_PlayState, sessGet_NowPlayingItem, h, Option.map_some',
    Option.getD_some, itemGet_MediaStreams, msIter, pyNext_video, pyNext_audio,
    pyNext_sub, bind_ok, bind_err, pure_eq_ok]

set_option maxHeartbeats 1600000 in
/-- The normalizer on an encoded well-typed session with a truthy playing
item succeeds and produces the canonical field list. -/
theorem transform_enc (now : Int) (r : RawSession) (i : NowPlayingItemR)
    (h : r.NowPlayingItem = some i) (hI : truthy (encItem i) = true) :
    transform_session_data now (encSession r) = .ok (.obj (canonSession now r i)) := by
  simp only [transform_session_data, canonSession, truthy_encSession_of_item r i h,
    sessGet_NowPlayingItem, h, Option.map_some', Option.getD_some, hI,
    Bool.true_eq_false, if_false, tsdPre_enc r i h, tsdIdent_enc, tsdMedia_enc,
    tsdState_enc, tsdVideo_enc, tsdAudioSub_enc, tsdStream_enc, tsdTail_enc,
    bind_ok, bind_err, pure_eq_ok]

/-- Lookup distributes over list append. -/
theorem jlookup_append (l1 l2 : List (String × JVal)) (k : String) :
    jlookup (l1 ++ l2) k = (jlookup l1 k).or (jlookup l2 k) := by
  induction l1 with
  | nil => simp [jlookup]
  | cons kv rest ih =>
      rcases kv with ⟨k1, v⟩
      by_cases h : k1 = k <;> simp [jlookup, h, ih]

/-- Reading a field of a successfully produced object. -/
theorem getField_ok_obj (kvs : List (String × JVal)) (k : String) :
    getField (.ok (.obj kvs)) k = .ok (jlookup kvs k) := rfl

/-- Reading a field of a failed normalization propagates the failure. -/
theorem getField_err (e : PyErr) (k : String) :
    getField (.error e) k = .error e := rfl

set_option maxHeartbeats 1600000 in
/-- Claim C1 (amended): for every well-typed raw session with a (truthy)
playing item, the `transcode_decision` field of the normalized session is
the fixed lookup on PlayState's `PlayMethod` with the code's `DirectPlay`
absent-key default: absent → `"direct play"`, `DirectPlay` →
`"direct play"`, `DirectStream` → `"copy"`, any other present value →
`"transcode"` (see `transcodeDecisionSpec`). -/
theorem C1_transcode_decision (now : Int) (r : RawSession) (i : NowPlayingItemR)
    (h : r.NowPlayingItem = some i) (hI : truthy (encItem i) = true) :
    getField (transform_session_data now (encSession r)) "transcode_decision"
      = .ok (some (.str (transcodeDecisionSpec (r.PlayState.bind PlayStateR.PlayMethod)))) := by
  rw [transform_enc now r i h hI]
  simp [getField_ok_obj, canonSession, jlookup_append, canonIdent, canonMedia, canonState,
    jlookup]

/-- Witness for C1: a session playing over `DirectStream` normalizes to
the `"copy"` decision. -/
theorem C1_transcode_decision_witness :
    getField
      (transform_session_data 0 (encSession
        { PlayState := some { PlayMethod := some (.str "DirectStream") },
          NowPlayingItem := some { Name := some "Movie" } }))
      "transcode_decision" = .ok (some (.str "copy")) := by
  have h := C1_transcode_decision 0
    { PlayState := some { PlayMethod := some (.str "DirectStream") },
      NowPlayingItem := some { Name := some "Movie" } }
    { Name := some "Movie" } rfl (truthy_encItem_of_Name _ rfl)
  simpa [transcodeDecisionSpec, isStrEq] using h

/-- Counterexample to claim C1 as stated: when the `PlayMethod` key is
absent from `PlayState`, the decision is `"direct play"` (the code's
`.get('PlayMethod', 'DirectPlay')` default), not the `"transcode"` the
claim requires. -/
theorem C1_absent_playmethod_counterexample :
    getField
      (transform_session_data 0
        (.obj [("PlayState", .obj []),
               ("NowPlayingItem", .obj [("Name", .str "Movie")])]))
      "transcode_decision" = .ok (some (.str "direct play"))
    ∧ "direct play" ≠ "transcode" := by
  exact ⟨rfl, by decide⟩

/-- Truncated division of embedded naturals is natural division. -/
theorem tdiv_natCast (a b : Nat) :
    Int.tdiv (a : Int) (b : Int) = ((a / b : Nat) : Int) := rfl

set_option maxHeartbeats 1600000 in
/-- Claim C6: tick-to-millisecond conversion of `PositionTicks`
(`view_offset`) and `RunTimeTicks` (`duration`) is integer division by
10000, non-negative on the provider's (natural-number) tick domain, zero
when the source is zero, absent or otherwise falsy. -/
theorem C6_tick_conversion (now : Int) (r : RawSession) (i : NowPlayingItemR)
    (t u : Nat) (h : r.NowPlayingItem = some i) (hI : truthy (encItem i) = true) :
    (r.PlayState.bind PlayStateR.PositionTicks = some (t : Int) →
      getField (transform_session_data now (encSession r)) "view_offset"
        = .ok (some (.int ((t / 10000 : Nat) : Int))))
    ∧ (r.PlayState.bind PlayStateR.PositionTicks = none →
      getField (transform_session_data now (encSession r)) "view_offset"
        = .ok (some (.int 0)))
    ∧ (i.RunTimeTicks = some (u : Int) →
      getField (transform_session_data now (encSession r)) "duration"
        = .ok (some (.int ((u / 10000 : Nat) : Int))))
    ∧ (0 : Int) ≤ ((t / 10000 : Nat) : Int)
    ∧ (∀ v : JVal, truthy v = false → ticks_to_ms v = .ok (.int 0)) := by
  refine ⟨fun hp => ?_, fun hp => ?_, fun hu => ?_, ?_, fun v hv => ?_⟩
  · rw [transform_enc now r i h hI]
    simp [getField_ok_obj, canonSession, jlookup_append, canonIdent, canonMedia, canonState,
      jlookup, hp, tdiv_natCast]
    exact Int.tdiv_eq_ediv (Int.natCast_nonneg t) (by norm_num)
  · rw [transform_enc now r i h hI]
    simp [getField_ok_obj, canonSession, jlookup_append, canonIdent, canonMedia, canonState,
      jlookup, hp]
  · rw [transform_enc now r i h hI]
    simp [getField_ok_obj, canonSession, jlookup_append, canonIdent, canonMedia, canonState,
      jlookup, hu, tdiv_natCast]
    exact Int.tdiv_eq_ediv (Int.natCast_nonneg u) (by norm_num)
  · exact Int.natCast_nonneg _
  · simp [ticks_to_ms, hv]

/-- Witness for C6: `PositionTicks = 909997742` yields
`view_offset = 90999` milliseconds, and an absent `RunTimeTicks` yields
duration 0. -/
theorem C6_tick_conversion_witness :
    getField
      (transform_session_data 0 (encSession
        { PlayState := some { PositionTicks := some 909997742 },
          NowPlayingItem := some { Name := some "X" } }))
      "view_offset" = .ok (some (.int 90999)) := by
  have h := (C6_tick_conversion 0
    { PlayState := some { PositionTicks := some 909997742 },
      NowPlayingItem := some { Name := some "X" } }
    { Name := some "X" } 909997742 0 rfl (truthy_encItem_of_Name _ rfl)).1 rfl
  simpa using h

set_option maxHeartbeats 1600000 in
/-- Claim C10: on every well-typed raw session with a (truthy) playing
item, the `subtitles` flag is 1 exactly when `PlayState.SubtitleStreamIndex`
is present and at least 0 (else 0), and `stream_subtitle_decision` is
`"burn"` in exactly that case and `"none"` otherwise — both determined by
the index alone, irrespective of the session's `MediaStreams` (over which
the theorem quantifies). -/
theorem C10_subtitle_flags (now : Int) (r : RawSession) (i : NowPlayingItemR)
    (h : r.NowPlayingItem = some i) (hI : truthy (encItem i) = true) :
    getField (transform_session_data now (encSession r)) "subtitles"
      = .ok (some (.int
          (if 0 ≤ (r.PlayState.bind PlayStateR.SubtitleStreamIndex).getD (-1) then 1 else 0)))
    ∧ getField (transform_session_data now (encSession r)) "stream_subtitle_decision"
      = .ok (some (.str
          (if (r.PlayState.bind PlayStateR.SubtitleStreamIndex).getD (-1) < 0
           then "none" else "burn")))
    ∧ (∀ o : Option Int, (0 ≤ o.getD (-1)) ↔ ∃ n, o = some n ∧ 0 ≤ n) := by
  refine ⟨?_, ?_, fun o => ?_⟩
  · rw [transform_enc now r i h hI]
    simp [getField_ok_obj, canonSession, jlookup_append, canonIdent, canonMedia, canonState,
      canonVideo, canonAudioSub, jlookup]
  · rw [transform_enc now r i h hI]
    simp [getField_ok_obj, canonSession, jlookup_append, canonIdent, canonMedia, canonState,
      canonVideo, canonAudioSub, canonStream, jlookup]
  · rcases o with - | n <;> simp

/-- Witness for C10: a subtitle index of 2 sets the flag and the burn
decision even though the session has an empty `MediaStreams` list. -/
theorem C10_subtitle_flags_witness :
    getField
      (transform_session_data 0 (encSession
        { PlayState := some { SubtitleStreamIndex := some 2 },
          NowPlayingItem := some { Name := some "X", MediaStreams := some [] } }))
      "subtitles" = .ok (some (.int 1))
    ∧ getField
      (transform_session_data 0 (encSession
        { PlayState := some { SubtitleStreamIndex := some 2 },
          NowPlayingItem := some { Name := some "X", MediaStreams := some [] } }))
      "stream_subtitle_decision" = .ok (some (.str "burn")) := by
  have h := C10_subtitle_flags 0
    { PlayState := some { SubtitleStreamIndex := some 2 },
      NowPlayingItem := some { Name := some "X", MediaStreams := some [] } }
    { Name := some "X", MediaStreams := some [] } rfl (truthy_encItem_of_Name _ rfl)
  exact ⟨by simpa using h.1, by simpa using h.2.1⟩

/-- Claim C4 (amended): the session normalizer is total on every
well-typed raw session — any combination of absent fields, any stream
lists, any play-method value — substituting the documented defaults; it is
not total on ill-typed values (see the counterexample). -/
theorem C4_total_on_welltyped (now : Int) (r : RawSession) :
    (transform_session_data now (encSession r)).isOk = true := by
  by_cases hT : truthy (encSession r) = false
  · simp [transform_session_data, hT, Except.isOk, Except.toBool]
  · rcases hN : r.NowPlayingItem with - | i
    · simp [transform_session_data, hT, sessGet_NowPlayingItem, hN, truthy,
        Except.isOk, Except.toBool]
    · by_cases hI : truthy (encItem i) = false
      · simp [transform_session_data, hT, sessGet_NowPlayingItem, hN, hI,
          Except.isOk, Except.toBool]
      · have hI2 : truthy (encItem i) = true := by
          revert hI; cases truthy (encItem i) <;> simp
        rw [transform_enc now r i hN hI2]
        rfl

/-- Counterexample to claim C4 as stated: the normalizer raises on
ill-typed fields — a `ValueError` for string-valued season/episode index
numbers (the `:02d` format code rejects `str`) and an `AttributeError`
for a null `Client` (`None.replace`). -/
theorem C4_raises_counterexample :
    transform_session_data 0
      (.obj [("NowPlayingItem",
              .obj [("Type", .str "Episode"), ("SeriesName", .str "S"),
                    ("ParentIndexNumber", .str "1"), ("IndexNumber", .str "5"),
                    ("Name", .str "N")])])
      = .error .valueError
    ∧ transform_session_data 0
      (.obj [("Client", .null), ("NowPlayingItem", .obj [("Name", .str "N")])])
      = .error .attributeError := ⟨rfl, rfl⟩

/-- Claim C7 (amended): full-title synthesis follows the type-dependent
rules with every presence requirement read as Python truthiness: an
episode needs a non-empty series name, a non-empty title and nonzero
season/episode numbers for the `s..e..` form, degrading first to
`series - title` (non-empty series and title) and then to the bare
title; a movie yields `title (year)` when both the title and the
production year are truthy, else the bare title; a track yields
`artist - title` when both the album artist and the title are truthy,
else the bare title; every other type yields the bare name
(`fullTitleSpec`). -/
theorem C7_full_title (i : NowPlayingItemR) :
    buildFullTitle (encItem i) = .ok (fullTitleSpec i) :=
  buildFullTitle_encItem i

/-- Counterexample to claim C7 as stated: season number 0 (a specials
season) is present yet falsy, so the code degrades to
`"{series} - {title}"` instead of the claimed `s00e05` form. -/
theorem C7_season_zero_counterexample :
    buildFullTitle
      (.obj [("Type", .str "Episode"), ("SeriesName", .str "Test Series"),
             ("ParentIndexNumber", .int 0), ("IndexNumber", .int 5),
             ("Name", .str "Test Episode")])
      = .ok (.str "Test Series - Test Episode")
    ∧ "Test Series - Test Episode" ≠ "Test Series - s00e05 - Test Episode" :=
  ⟨rfl, by decide⟩

/-- The spec's episode example evaluates as claimed. -/
theorem bft_example_episode :
    buildFullTitle
      (.obj [("Type", .str "Episode"), ("SeriesName", .str "Test Series"),
             ("ParentIndexNumber", .int 1), ("IndexNumber", .int 5),
             ("Name", .str "Test Episode")])
      = .ok (.str "Test Series - s01e05 - Test Episode") := rfl

/-- The spec's movie example evaluates as claimed. -/
theorem bft_example_movie :
    buildFullTitle
      (.obj [("Type", .str "Movie"), ("Name", .str "Test Movie"),
             ("ProductionYear", .int 2023)])
      = .ok (.str "Test Movie (2023)") := rfl

/-- The spec's track example evaluates as claimed. -/
theorem bft_example_track :
    buildFullTitle
      (.obj [("Type", .str "Track"), ("AlbumArtist", .str "Test Artist"),
             ("Name", .str "Test Song")])
      = .ok (.str "Test Artist - Test Song") := rfl

set_option maxHeartbeats 1600000 in
set_option maxRecDepth 16384 in
/-- Claim C8 (amended): normalization is deterministic — a pure function
of the raw record and the observation instant — and two invocations at
different instants agree on every output field except the time-stamped
`started` and `added_at`. -/
theorem C8_deterministic_modulo_timestamps (now1 now2 : Int) (r : RawSession) :
    (transform_session_data now1 (encSession r)).map (eraseKeys ["added_at", "started"])
      = (transform_session_data now2 (encSession r)).map (eraseKeys ["added_at", "started"]) := by
  by_cases hT : truthy (encSession r) = false
  · simp [transform_session_data, hT]
  · rcases hN : r.NowPlayingItem with - | i
    · simp [transform_session_data, hT, sessGet_NowPlayingItem, hN, truthy]
    · by_cases hI : truthy (encItem i) = false
      · simp [transform_session_data, hT, sessGet_NowPlayingItem, hN, hI]
      · have hI2 : truthy (encItem i) = true := by
          revert hI; cases truthy (encItem i) <;> simp
        rw [transform_enc now1 r i hN hI2, transform_enc now2 r i hN hI2]
        simp [eraseKeys, canonSession, canonIdent, canonMedia, canonState, canonVideo,
          canonAudioSub, canonStream, canonTail, List.filter_append, List.filter,
          Except.map, List.contains, List.elem]

set_option maxRecDepth 131072 in
/-- Counterexample to claim C8 as stated: the same raw record normalized
at two different instants differs (the `started` field carries the
invocation timestamp). -/
theorem C8_not_time_invariant :
    transform_session_data 0 (.obj [("NowPlayingItem", .obj [("Name", .str "X")])])
      ≠ transform_session_data 1 (.obj [("NowPlayingItem", .obj [("Name", .str "X")])]) := by
  intro hEq
  have h0 : getField
      (transform_session_data 0 (.obj [("NowPlayingItem", .obj [("Name", .str "X")])]))
      "started" = .ok (some (.int 0)) := rfl
  have h1 : getField
      (transform_session_data 1 (.obj [("NowPlayingItem", .obj [("Name", .str "X")])]))
      "started" = .ok (some (.int 1)) := rfl
  rw [hEq, h1] at h0
  simp at h0

/-- A successful bind factors through an explicit intermediate success. -/
theorem peel2 {α β : Type} {x : Except PyErr α} {f : α → Except PyErr β} {v : β}
    (h : Bind.bind x f = .ok v) : ∃ a, x = .ok a ∧ f a = .ok v := by
  cases x with
  | ok a => exact ⟨a, rfl, h⟩
  | error e => simp [Bind.bind, Except.bind] at h

/-- The identity chunk never produces an empty field list. -/
theorem tsdIdent_ne_nil (s np : JVal) (a : List (String × JVal))
    (h : tsdIdent s np = .ok a) : a ≠ [] := by
  unfold tsdIdent at h
  iterate 14 (obtain ⟨x, h⟩ := peel h)
  simp only [pure_eq_ok, Except.ok.injEq] at h
  subst h
  simp

set_option maxHeartbeats 1600000 in
/-- Claim C5 (amended): the normalizer returns the Empty marker (an object
with zero keys) exactly when the raw record is falsy (absent, null, or an
empty container) or its `NowPlayingItem` entry is absent, null, or
otherwise falsy (for example an empty object); whenever normalization
succeeds on a session with a truthy `NowPlayingItem`, the result is a
populated (non-Empty) record. -/
theorem C5_empty_iff_falsy (now : Int) (s : JVal) :
    transform_session_data now s = .ok (.obj [])
      ↔ (truthy s = false
          ∨ ∃ kvs, s = .obj kvs
              ∧ truthy ((jlookup kvs "NowPlayingItem").getD .null) = false) := by
  by_cases hT : truthy s = false
  · simp [transform_session_data, hT]
  · rcases s with - | b | n | st | xs | kvs
    · simp [truthy] at hT
    · simp [transform_session_data, hT, pyGet]
    · simp [transform_session_data, hT, pyGet]
    · simp [transform_session_data, hT, pyGet]
    · simp [transform_session_data, hT, pyGet]
    · by_cases hN : truthy ((jlookup kvs "NowPlayingItem").getD .null) = false
      · simp [transform_session_data, hT, pyGet_obj, hN]
      · constructor
        · intro hEq
          exfalso
          simp only [transform_session_data, hT, if_false, pyGet_obj, hN, if_true,
            Bool.false_eq_true, ite_false, ite_true] at hEq
          obtain ⟨pre, hEq⟩ := peel hEq
          rcases pre with ⟨ps, np, vs, auds, subs⟩
          obtain ⟨a, ha, hEq⟩ := peel2 hEq
          iterate 6 (obtain ⟨x, hEq⟩ := peel hEq)
          simp only [pure_eq_ok, Except.ok.injEq, JVal.obj.injEq] at hEq
          rcases List.append_eq_nil.mp hEq with ⟨h1, -⟩
          rcases List.append_eq_nil.mp h1 with ⟨h2, -⟩
          rcases List.append_eq_nil.mp h2 with ⟨h3, -⟩
          rcases List.append_eq_nil.mp h3 with ⟨h4, -⟩
          rcases List.append_eq_nil.mp h4 with ⟨h5, -⟩
          rcases List.append_eq_nil.mp h5 with ⟨h6, -⟩
          exact tsdIdent_ne_nil _ _ _ ha h6
        · intro hR
          rcases hR with h1 | ⟨kvs2, heq, h2⟩
          · exact absurd h1 hT
          · cases heq
            exact absurd h2 hN

/-- Counterexample to claim C5 as stated: a session whose
`NowPlayingItem` key is present and non-null — the empty object, which is
merely falsy — still normalizes to the Empty marker, although the claim
allows Empty only for absent, null or missing items. -/
theorem C5_present_empty_item_counterexample :
    transform_session_data 0 (.obj [("NowPlayingItem", .obj [])]) = .ok (.obj [])
    ∧ jlookup [("NowPlayingItem", (.obj [] : JVal))] "NowPlayingItem" = some (.obj [])
    ∧ (.obj [] : JVal) ≠ .null :=
  ⟨rfl, rfl, by simp⟩

set_option maxRecDepth 131072 in
/-- Claim C2 (code bug): a fetched session list containing one active
session (truthy `NowPlayingItem`, second conjunct) still yields the empty
activity result — the loop variable `session` shadows the imported
`session` module, `session.mask_session_info` raises `AttributeError` on
the dict, and the broad `except` converts it into `('0', [])` — where the
claimed behavior is a count of `"1"` with the normalized session. -/
theorem C2_activity_shadowing_bug :
    get_current_activity 0
      (.ok (.arr [.obj [("Id", .str "s1"),
                        ("NowPlayingItem", .obj [("Name", .str "Movie")])]]))
      = ("0", [])
    ∧ truthy ((jlookup [("Id", JVal.str "s1"),
                        ("NowPlayingItem", .obj [("Name", .str "Movie")])]
                "NowPlayingItem").getD .null) = true :=
  ⟨rfl, rfl⟩

/-- Claim C3: when the transport raises (left conjunct) or returns a
failure value decoded as `None` (right conjunct), `get_current_activity`
does not raise — the model is a total function — and returns exactly the
empty well-formed result: stream count encoded as the string `"0"` and an
empty session list. -/
theorem C3_degrades_to_empty (now : Int) (e : PyErr) :
    get_current_activity now (.error e) = ("0", [])
    ∧ get_current_activity now (.ok .null) = ("0", []) :=
  ⟨rfl, rfl⟩

/-- The section-type helper on an encoded library computes the
specification lookup. -/
theorem gst_enc (r : RawLibrary) :
    get_section_type (encLib r) = .ok (.str (sectionTypeSpec r.CollectionType)) := by
  simp only [get_section_type, sectionTypeSpec, libGet_CollectionType, Option.getD_map,
    pyLower_str, bind_ok, pure_eq_ok]

/-- Joining encoded string values computes the specification join. -/
theorem joinStrs_map (l : List String) :
    joinStrs (l.map JVal.str) = .ok (strJoinSemicolon l) := by
  induction l with
  | nil => rfl
  | cons s rest ih =>
      cases rest with
      | nil => rfl
      | cons y t =>
          simp only [List.map_cons] at ih
          simp [joinStrs, strJoinSemicolon, ih, bind_ok, pure_eq_ok]

/-- Joining an encoded optional `Locations` list succeeds with the
specification join. -/
theorem pyJoin_encLoc (o : Option (List String)) :
    pyJoinSemicolon ((o.map fun l => JVal.arr (l.map JVal.str)).getD (.arr []))
      = .ok (strJoinSemicolon (o.getD [])) := by
  rcases o with - | l
  · rfl
  · simp [pyJoinSemicolon, joinStrs_map]

set_option maxHeartbeats 1600000 in
/-- The library normalizer on an encoded truthy record succeeds with the
canonical field list. -/
theorem transform_library_enc (now : Int) (r : RawLibrary)
    (h : truthy (encLib r) = true) :
    transform_library_data now (encLib r) = .ok (.obj (canonLibrary now r)) := by
  simp only [transform_library_data, h, Bool.true_eq_false, if_false, canonLibrary,
    libGet_ItemId, libGet_Name, libGet_CollectionType, libGet_Locations, Option.getD_map,
    gst_enc, pyJoin_encLoc, bind_ok, bind_err, pure_eq_ok]

set_option maxHeartbeats 1600000 in
/-- Claim C9: library classification is the fixed case-insensitive lookup
on `CollectionType`: `movies` maps to section type `movie`, `tvshows` to
`show`, any string outside the lookup table — e.g. `audiobooks` — and an
absent `CollectionType` resolve to `mixed`. -/
theorem C9_section_type (now : Int) (r : RawLibrary) (hL : truthy (encLib r) = true) :
    (r.CollectionType = none →
      getField (transform_library_data now (encLib r)) "section_type"
        = .ok (some (.str "mixed")))
    ∧ (∀ s, r.CollectionType = some s →
        (strLower s = "movies" →
          getField (transform_library_data now (encLib r)) "section_type"
            = .ok (some (.str "movie")))
        ∧ (strLower s = "tvshows" →
          getField (transform_library_data now (encLib r)) "section_type"
            = .ok (some (.str "show")))
        ∧ (strLower s ∉ ["movies", "tvshows", "music", "photos", "books", "homevideos",
              "musicvideos", "mixed"] →
          getField (transform_library_data now (encLib r)) "section_type"
            = .ok (some (.str "mixed")))) := by
  rw [transform_library_enc now r hL]
  refine ⟨fun hct => ?_, fun s hct => ⟨fun hs => ?_, fun hs => ?_, fun hs => ?_⟩⟩
  · simp [getField_ok_obj, canonLibrary, jlookup, sectionTypeSpec, hct, strLower]
  · simp [getField_ok_obj, canonLibrary, jlookup, sectionTypeSpec, hct, hs]
  · simp [getField_ok_obj, canonLibrary, jlookup, sectionTypeSpec, hct, hs]
  · obtain ⟨n1, n2, n3, n4, n5, n6, n7, n8⟩ :
        ¬strLower s = "movies" ∧ ¬strLower s = "tvshows" ∧ ¬strLower s = "music"
          ∧ ¬strLower s = "photos" ∧ ¬strLower s = "books" ∧ ¬strLower s = "homevideos"
          ∧ ¬strLower s = "musicvideos" ∧ ¬strLower s = "mixed" := by
      simpa using hs
    simp [getField_ok_obj, canonLibrary, jlookup, sectionTypeSpec, hct, n1, n2, n3, n4,
      n5, n6, n7, n8]

/-- Witness for C9: `Movies` (case-insensitively) classifies as `movie`,
`audiobooks` and an absent collection type classify as `mixed`. -/
theorem C9_section_type_witness :
    getField (transform_library_data 0 (encLib
        { ItemId := some "L1", CollectionType := some "Movies" })) "section_type"
      = .ok (some (.str "movie"))
    ∧ getField (transform_library_data 0 (encLib
        { ItemId := some "L2", CollectionType := some "audiobooks" })) "section_type"
      = .ok (some (.str "mixed"))
    ∧ getField (transform_library_data 0 (encLib
        { ItemId := some "L3" })) "section_type"
      = .ok (some (.str "mixed")) := by
  refine ⟨?_, ?_, ?_⟩
  · have h := ((C9_section_type 0 { ItemId := some "L1", CollectionType := some "Movies" }
      (truthy_encLib_of_ItemId _ rfl)).2 "Movies" rfl).1 (by decide)
    exact h
  · have h := ((C9_section_type 0 { ItemId := some "L2", CollectionType := some "audiobooks" }
      (truthy_encLib_of_ItemId _ rfl)).2 "audiobooks" rfl).2.2 (by decide)
    exact h
  · have h := (C9_section_type 0 { ItemId := some "L3" }
      (truthy_encLib_of_ItemId _ rfl)).1 rfl
    exact h
